import Mathlib

/-!
# Task identities, task construction and the event pool of the minos kernel

A shallow embedding of `os/core/task.c`.  The kernel state is an explicit
record; every C function becomes a Lean function from a state to an
`Outcome`, which is either a normal return (value and new state) or a stop
at an invalid memory access or a panic (with the state reached so far).
Locks are not modelled: each call is executed on its own.  Calls into other
subsystems (scheduler, architecture backend, hooks, allocator bookkeeping)
are recorded in a call log and are taken not to touch the fields modelled
here.
-/

namespace Minos

/-! ## Compile-time parameters -/

/-- Constants that `task.c` takes from headers outside the files at hand. -/
structure Config where
  OS_NR_TASKS : Nat
  OS_REALTIME_TASK : Nat
  OS_LOWEST_PRIO : Nat
  OS_PRIO_PCPU : Nat
  OS_PRIO_IDLE : Nat
  NR_CPUS : Nat
  PCPU_AFF_NONE : Nat
  PCPU_AFF_PERCPU : Nat
  BITS_PER_LONG : Nat
  TASK_FLAGS_VCPU : Nat
  TASK_FLAGS_IDLE : Nat
  TASK_STAT_RDY : Nat
  TASK_STAT_RUNNING : Nat
  TASK_STAT_SUSPEND : Nat
  TASK_STAT_PEND_ANY : Nat
  TASK_STAT_PEND_TO : Nat
  TASK_STACK_SIZE : Nat
  PAGE_SIZE : Nat
  TASK_INFO_SIZE : Nat
  TASK_NAME_SIZE : Nat
  CONFIG_TASK_RUN_TIME : Nat
  CONFIG_MINOS_ENTRY_ADDRESS : Nat
  TASK_EVENT_EVENT_READY : Nat
  TASK_EVENT_FLAG_READY : Nat
  EINVAL : Nat
  ENOPID : Nat
  deriving Repr

/-- The size of the event pool, `#define NR_TASK_EVENT 32`. -/
def NR_TASK_EVENT : Nat := 32

/-! ## Data model -/

/-- A task record: either the static `idle_tasks[cpu]` or a record obtained
from `zalloc` at some address. -/
inductive TaskRef where
  | idle (cpu : Nat)
  | heap (addr : Nat)
  deriving DecidableEq, Repr

/-- A value of type `struct task *`: `NULL`, the sentinel `OS_TASK_RESERVED`,
or the address of a task record. -/
inductive TaskPtr where
  | null
  | reserved
  | obj (r : TaskRef)
  deriving DecidableEq, Repr

/-- The fields of `struct task` that `task.c` reads or writes. -/
structure Task where
  stack_base : Int
  stack_origin : Int
  stack_size : Nat
  udata : Nat
  flags : Nat
  pid : Int
  prio : Nat
  by_ : Nat
  bx : Nat
  bity : Nat
  bitx : Nat
  pend_stat : Nat
  stat : Nat
  affinity : Int
  del_req : Nat
  run_time : Nat
  delay : Nat
  msg : Nat
  flags_rdy : Nat
  wait_event : Nat
  delay_timer_function : Bool
  delay_timer_data : TaskPtr
  name : List Nat
  deriving DecidableEq, Repr

/-- A record as `zalloc` or `memset(task, 0, sizeof(*task))` leaves it. -/
def Task.zero : Task :=
  { stack_base := 0, stack_origin := 0, stack_size := 0, udata := 0, flags := 0,
    pid := 0, prio := 0, by_ := 0, bx := 0, bity := 0, bitx := 0, pend_stat := 0,
    stat := 0, affinity := 0, del_req := 0, run_time := 0, delay := 0, msg := 0,
    flags_rdy := 0, wait_event := 0, delay_timer_function := false,
    delay_timer_data := TaskPtr.null, name := [] }

/-- The fields of `struct task_event`. -/
structure TaskEvent where
  id : Int
  action : Nat
  task : TaskPtr
  msg : Nat
  msk : Nat
  flags : Nat
  deriving DecidableEq, Repr

/-- The part of `struct pcpu` used by `task.c`.  The three lists hold the
tasks whose `list` or `stat_list` node is linked into them, head first. -/
structure Pcpu where
  idle_task : TaskPtr
  task_list : List TaskRef
  ready_list : List TaskRef
  new_list : List TaskRef
  nr_pcpu_task : Nat
  deriving DecidableEq, Repr

/-- Calls that leave `task.c`, in the order they are made. -/
inductive Call where
  | task_info_init (addr : Int) (task : TaskRef) (aff : Int)
  | pr_info
  | spin_lock_init (task : TaskRef)
  | init_timer_on_cpu (task : TaskRef) (cpu : Int)
  | task_vmodules_init (task : TaskRef)
  | do_hooks (task : TaskPtr)
  | arch_init_task (task : TaskRef) (func : Nat) (udata : Nat)
  | set_task_ready (task : TaskRef)
  | set_need_resched
  | sched
  | pcpu_resched (cpu : Nat)
  | free (task : TaskRef)
  | set_current_prio (prio : Nat)
  | set_next_prio (prio : Nat)
  | pr_err
  | pr_warn
  deriving DecidableEq, Repr

/-- The global state of `task.c` together with the per-CPU structures and
the task records it reaches. -/
structure Kernel where
  pid_map : Nat → Bool
  os_task_table : Nat → TaskPtr
  os_task_nr : Int
  task_events : Nat → TaskEvent
  task_event_map : Nat → Bool
  idle_task : Nat → TaskPtr
  __current_tasks : Nat → TaskPtr
  __next_tasks : Nat → TaskPtr
  pcpu : Nat → Pcpu
  mem : TaskRef → Task
  log : List Call

/-- The state of a freshly loaded kernel image: all globals are zero. -/
def Kernel.boot : Kernel :=
  { pid_map := fun _ => false
    os_task_table := fun _ => TaskPtr.null
    os_task_nr := 0
    task_events := fun _ =>
      { id := 0, action := 0, task := TaskPtr.null, msg := 0, msk := 0, flags := 0 }
    task_event_map := fun _ => false
    idle_task := fun _ => TaskPtr.null
    __current_tasks := fun _ => TaskPtr.null
    __next_tasks := fun _ => TaskPtr.null
    pcpu := fun _ =>
      { idle_task := TaskPtr.null, task_list := [], ready_list := [], new_list := [],
        nr_pcpu_task := 0 }
    mem := fun _ => Task.zero
    log := [] }

/-- Why a call did not return. -/
inductive Fault where
  | bitmap_oob (nr : Int)
  | table_oob (idx : Int)
  | percpu_oob (cpu : Int)
  | bad_task_ptr (p : TaskPtr)
  | bad_event_ptr
  | panic
  deriving DecidableEq, Repr

/-- The result of running one C function: it returns a value in a new
state, or it stops at a fault in the state reached so far. -/
inductive Outcome (α : Type) where
  | ret (val : α) (s : Kernel)
  | fault (f : Fault) (s : Kernel)

/-- The returned value, if the call returned. -/
def Outcome.returned {α : Type} : Outcome α → Option α
  | Outcome.ret v _ => some v
  | Outcome.fault _ _ => none

/-- The fault, if the call stopped. -/
def Outcome.faulted {α : Type} : Outcome α → Option Fault
  | Outcome.ret _ _ => none
  | Outcome.fault f _ => some f

/-- The state in which the call ended. -/
def Outcome.state {α : Type} : Outcome α → Kernel
  | Outcome.ret _ s => s
  | Outcome.fault _ s => s

/-! ## Bitmaps -/

/-- Modelled from the spec: the macro `BITS_TO_LONGS` behind `DECLARE_BITMAP`
is not in the files at hand; a bitmap of `nbits` bits occupies whole words. -/
def BITS_TO_LONGS (cfg : Config) (nbits : Nat) : Nat :=
  (nbits + cfg.BITS_PER_LONG - 1) / cfg.BITS_PER_LONG

/-- The number of bits stored by `DECLARE_BITMAP(name, nbits)`. -/
def bitmap_bits (cfg : Config) (nbits : Nat) : Nat :=
  BITS_TO_LONGS cfg nbits * cfg.BITS_PER_LONG

/-- Whether bit `nr` lies inside the storage of a bitmap declared with
`nbits` bits. -/
def bit_in_bounds (cfg : Config) (nbits : Nat) (nr : Int) : Bool :=
  decide (0 ≤ nr) && decide (nr < (bitmap_bits cfg nbits : Int))

/-- Modelled from the spec: `set_bit(nr, map)` sets one bit; `none` when the
bit is outside the storage of the bitmap. -/
def set_bit (cfg : Config) (nbits : Nat) (map : Nat → Bool) (nr : Int) :
    Option (Nat → Bool) :=
  if bit_in_bounds cfg nbits nr then some (Function.update map nr.toNat true) else none

/-- Modelled from the spec: `clear_bit(nr, map)` clears one bit; `none` when
the bit is outside the storage of the bitmap. -/
def clear_bit (cfg : Config) (nbits : Nat) (map : Nat → Bool) (nr : Int) :
    Option (Nat → Bool) :=
  if bit_in_bounds cfg nbits nr then some (Function.update map nr.toNat false) else none

/-- Modelled from the spec: `test_and_set_bit(nr, map)` sets one bit and
returns its previous value. -/
def test_and_set_bit (cfg : Config) (nbits : Nat) (map : Nat → Bool) (nr : Int) :
    Option (Bool × (Nat → Bool)) :=
  if bit_in_bounds cfg nbits nr then
    some (map nr.toNat, Function.update map nr.toNat true)
  else none

/-- Scan `n` positions upward from `offset` for a clear bit; the position
after the last one scanned when all are set. -/
def scan_zero_bit (map : Nat → Bool) : Nat → Nat → Nat
  | offset, 0 => offset
  | offset, n + 1 => if map offset = false then offset else scan_zero_bit map (offset + 1) n

/-- Modelled from the spec: `find_next_zero_bit(map, size, offset)` is the
first clear bit at or after `offset` and below `size`, and `size` when there
is none. -/
def find_next_zero_bit (map : Nat → Bool) (size offset : Nat) : Nat :=
  if offset ≥ size then size else scan_zero_bit map offset (size - offset)

/-! ## Identity allocator -/

/-- The structure `get_per_cpu(pcpu, cpuid)` points to, when `cpuid` names a
CPU.  Forming the pointer is plain address arithmetic; this is the read
through it. -/
def pcpu_of (cfg : Config) (s : Kernel) (cpuid : Int) : Option Pcpu :=
  if 0 ≤ cpuid ∧ cpuid < (cfg.NR_CPUS : Int) then some (s.pcpu cpuid.toNat) else none

/-- The scan of the dense region in `alloc_pid` (lines 82 to 87). -/
def alloc_pid_scan (cfg : Config) (s : Kernel) : Outcome Int :=
  let pid := find_next_zero_bit s.pid_map cfg.OS_NR_TASKS cfg.OS_REALTIME_TASK
  if pid ≥ cfg.OS_NR_TASKS then Outcome.ret (-1) s
  else
    match set_bit cfg cfg.OS_NR_TASKS s.pid_map pid with
    | none => Outcome.fault (Fault.bitmap_oob pid) s
    | some m => Outcome.ret pid { s with pid_map := m }

/-- The function `alloc_pid(prio, cpuid)`.  A priority (`prio_t`) is an
unsigned value. -/
def alloc_pid (cfg : Config) (s : Kernel) (prio : Nat) (cpuid : Int) : Outcome Int :=
  if prio > cfg.OS_LOWEST_PRIO then
    if prio = cfg.OS_PRIO_IDLE then
      match pcpu_of cfg s cpuid with
      | none => Outcome.fault (Fault.percpu_oob cpuid) s
      | some pc =>
        if pc.idle_task ≠ TaskPtr.null then Outcome.ret (-1) s
        else alloc_pid_scan cfg s
    else alloc_pid_scan cfg s
  else
    match test_and_set_bit cfg cfg.OS_NR_TASKS s.pid_map prio with
    | none => Outcome.fault (Fault.bitmap_oob prio) s
    | some (old, m) =>
      if old = false then
        if prio < cfg.OS_NR_TASKS then
          Outcome.ret prio
            { s with pid_map := m
                     os_task_table := Function.update s.os_task_table prio TaskPtr.reserved }
        else Outcome.fault (Fault.table_oob prio) { s with pid_map := m }
      else Outcome.ret (-1) { s with pid_map := m }

/-- The function `release_pid(pid)`. -/
def release_pid (cfg : Config) (s : Kernel) (pid : Int) : Outcome Unit :=
  if pid > (cfg.OS_NR_TASKS : Int) then Outcome.ret () s
  else
    match clear_bit cfg cfg.OS_NR_TASKS s.pid_map pid with
    | none => Outcome.fault (Fault.bitmap_oob pid) s
    | some m =>
      if 0 ≤ pid ∧ pid < (cfg.OS_NR_TASKS : Int) then
        Outcome.ret ()
          { s with pid_map := m
                   os_task_table := Function.update s.os_task_table pid.toNat TaskPtr.null }
      else Outcome.fault (Fault.table_oob pid) { s with pid_map := m }

/-- The function `pid_to_task(pid)`. -/
def pid_to_task (cfg : Config) (s : Kernel) (pid : Int) : Outcome TaskPtr :=
  if pid ≥ (cfg.OS_NR_TASKS : Int) then Outcome.ret TaskPtr.null s
  else if 0 ≤ pid then Outcome.ret (s.os_task_table pid.toNat) s
  else Outcome.fault (Fault.table_oob pid) s

/-! ## Event slot pool -/

/-- The function `alloc_task_event()`.  The returned pointer
`&task_events[bit]` is given as the index `bit`; `none` is `NULL`. -/
def alloc_task_event (cfg : Config) (s : Kernel) : Outcome (Option Nat) :=
  let bit := find_next_zero_bit s.task_event_map NR_TASK_EVENT 0
  if bit < NR_TASK_EVENT then
    match set_bit cfg NR_TASK_EVENT s.task_event_map bit with
    | none => Outcome.fault (Fault.bitmap_oob bit) s
    | some m => Outcome.ret (some bit) { s with task_event_map := m }
  else Outcome.ret none s

/-- The function `release_task_event(event)`, for an event of the pool. -/
def release_task_event (cfg : Config) (s : Kernel) (event : Nat) : Outcome Unit :=
  match clear_bit cfg NR_TASK_EVENT s.task_event_map (s.task_events event).id with
  | none => Outcome.fault (Fault.bitmap_oob (s.task_events event).id) s
  | some m => Outcome.ret () { s with task_event_map := m }

/-- The loop of `task_events_init`: `n` more rounds starting at index `i`. -/
def task_events_init_loop : Nat → Nat → (Nat → TaskEvent) → (Nat → TaskEvent)
  | 0, _, events => events
  | n + 1, i, events =>
    task_events_init_loop n (i + 1)
      (Function.update events i { events i with id := (i : Int) })

/-- The function `task_events_init()`. -/
def task_events_init (s : Kernel) : Outcome Int :=
  Outcome.ret 0 { s with task_events := task_events_init_loop NR_TASK_EVENT 0 s.task_events }

/-! ## Task construction -/

/-- What a call reads from its surroundings: the executing CPU, whether the
scheduler runs, what the allocators hand out (`none` and `0` are `NULL`) and
the stack pointer. -/
structure Env where
  smp_processor_id : Nat
  os_is_running : Bool
  zalloc : Option Nat
  get_free_pages : Int
  current_sp : Int
  deriving DecidableEq, Repr

/-- The operation `atomic_inc` on the 32-bit counter `os_task_nr`. -/
def atomic_inc (v : Int) : Int := (v + 1 + 2147483648) % 4294967296 - 2147483648

/-- Modelled from the spec: the macro `BALIGN(x, a)` rounds `x` up to a
multiple of `a`. -/
def BALIGN (x a : Nat) : Nat := (x + a - 1) / a * a

/-- Modelled from the spec: the macro `is_realtime_task(task)` holds for a
priority in the priority-as-identity range. -/
def is_realtime_task (cfg : Config) (t : Task) : Bool := decide (t.prio ≤ cfg.OS_LOWEST_PRIO)

/-- Append one call to the log. -/
def Kernel.call (s : Kernel) (c : Call) : Kernel := { s with log := s.log ++ [c] }

/-- Overwrite the record of one task. -/
def Kernel.store (s : Kernel) (task : TaskRef) (t : Task) : Kernel :=
  { s with mem := Function.update s.mem task t }

/-- The function `task_init`, on a pointer to a task record.  A `stack` of 0
is `NULL`. -/
def task_init (cfg : Config) (s : Kernel) (task : TaskRef) (name : List Nat) (stack : Int)
    (arg : Nat) (prio : Nat) (pid : Int) (aff : Int) (stk_size : Nat) (opt : Nat) : Kernel :=
  let t0 := s.mem task
  let t1 : Task :=
    if stack ≠ 0 then
      { t0 with stack_origin := stack - (cfg.TASK_INFO_SIZE : Int)
                stack_base := stack - (cfg.TASK_INFO_SIZE : Int)
                stack_size := stk_size }
    else t0
  let s1 : Kernel :=
    if stack ≠ 0 then s.call (Call.task_info_init t1.stack_origin task aff) else s
  let t2 : Task := { t1 with udata := arg, flags := opt, pid := pid, prio := prio }
  let t3 : Task :=
    if prio ≤ cfg.OS_LOWEST_PRIO then
      { t2 with by_ := prio >>> 3, bx := prio &&& 7,
                bity := 1 <<< (prio >>> 3), bitx := 1 <<< (prio &&& 7) }
    else t2
  let t4 : Task :=
    { t3 with pend_stat := 0
              stat := if t3.flags &&& cfg.TASK_FLAGS_VCPU ≠ 0 then cfg.TASK_STAT_SUSPEND
                      else cfg.TASK_STAT_RDY }
  let t5 : Task :=
    { t4 with affinity := aff, flags := opt, del_req := 0,
              run_time := cfg.CONFIG_TASK_RUN_TIME }
  let t6 : Task :=
    if t5.prio = cfg.OS_PRIO_IDLE then { t5 with flags := t5.flags ||| cfg.TASK_FLAGS_IDLE }
    else t5
  let t7 : Task :=
    { t6 with delay_timer_function := true, delay_timer_data := TaskPtr.obj task }
  let n := min name.length cfg.TASK_NAME_SIZE
  let t8 : Task := { t7 with name := name.take n ++ t7.name.drop n }
  (((s1.call (Call.spin_lock_init task)).call (Call.init_timer_on_cpu task aff)).store task t8)

/-- The function `__create_task`. -/
def __create_task (cfg : Config) (env : Env) (s : Kernel) (name : List Nat)
    (_func : Nat) (arg : Nat) (prio : Nat) (pid : Int) (aff : Int) (stk_size : Nat)
    (opt : Nat) : Outcome TaskPtr :=
  match env.zalloc with
  | none => Outcome.ret TaskPtr.null (s.call Call.pr_err)
  | some a =>
    let task := TaskRef.heap a
    let s1 := s.store task Task.zero
    let stk := if stk_size ≠ 0 then BALIGN stk_size cfg.PAGE_SIZE else stk_size
    let stack : Int := if stk_size ≠ 0 then env.get_free_pages else 0
    if stk_size ≠ 0 ∧ stack = 0 then
      Outcome.ret TaskPtr.null ((s1.call Call.pr_err).call (Call.free task))
    else
      let s2 := if stk_size ≠ 0 then s1.call Call.pr_info else s1
      if 0 ≤ pid ∧ pid < (cfg.OS_NR_TASKS : Int) then
        let s3 : Kernel :=
          { s2 with os_task_table := Function.update s2.os_task_table pid.toNat (TaskPtr.obj task)
                    os_task_nr := atomic_inc s2.os_task_nr }
        let aff1 : Int :=
          if aff = (cfg.PCPU_AFF_NONE : Int) then 0
          else if aff = (cfg.PCPU_AFF_PERCPU : Int) then (env.smp_processor_id : Int)
          else aff
        let s4 := task_init cfg s3 task name stack arg prio pid aff1 stk opt
        Outcome.ret (TaskPtr.obj task) (s4.call (Call.task_vmodules_init task))
      else Outcome.fault (Fault.table_oob pid) s2

/-- The insertion into the per-CPU lists in `create_task` (lines 353 to 363). -/
def place_task (cfg : Config) (env : Env) (s : Kernel) (t : TaskRef) (prio : Nat)
    (aff : Nat) : Kernel :=
  if aff < cfg.NR_CPUS ∧ prio = cfg.OS_PRIO_PCPU then
    let pc := s.pcpu aff
    let pc1 : Pcpu := { pc with task_list := pc.task_list ++ [t] }
    let pc2 : Pcpu :=
      if aff = env.smp_processor_id then { pc1 with ready_list := pc1.ready_list ++ [t] }
      else { pc1 with new_list := pc1.new_list ++ [t] }
    let pc3 : Pcpu := { pc2 with nr_pcpu_task := pc2.nr_pcpu_task + 1 }
    { s with pcpu := Function.update s.pcpu aff pc3 }
  else s

/-- The activation at the end of `create_task` (lines 370 to 393). -/
def activate_task (cfg : Config) (env : Env) (s : Kernel) (t : TaskRef) (aff : Nat) :
    Kernel :=
  if (s.mem t).flags &&& cfg.TASK_FLAGS_VCPU = 0 then
    let s1 := if is_realtime_task cfg (s.mem t) then s.call (Call.set_task_ready t) else s
    if is_realtime_task cfg (s1.mem t) then
      if env.os_is_running then s1.call Call.sched else s1
    else
      if aff ≠ env.smp_processor_id then s1.call (Call.pcpu_resched aff) else s1
  else s

/-- The part of `create_task` from `task_create_hook` on (lines 341 to 395),
with the values `task` and `pid` have at that point. -/
def create_task_finish (cfg : Config) (env : Env) (s : Kernel) (task : TaskPtr) (pid : Int)
    (func : Nat) (prio : Nat) : Outcome Int :=
  let s1 := s.call (Call.do_hooks task)
  match task with
  | TaskPtr.obj t =>
    let s2 := s1.call (Call.arch_init_task t func (s1.mem t).udata)
    let aff : Nat := ((s2.mem t).affinity % 65536).toNat
    let s3 := place_task cfg env s2 t prio aff
    Outcome.ret pid (activate_task cfg env s3 t aff)
  | p => Outcome.fault (Fault.bad_task_ptr p) s1

/-- The function `create_task`; `aff` is its 16-bit affinity argument. -/
def create_task (cfg : Config) (env : Env) (s : Kernel) (name : List Nat) (func : Nat)
    (arg : Nat) (prio : Nat) (aff : Nat) (opt : Nat) : Outcome Int :=
  if aff ≥ cfg.NR_CPUS ∧ aff ≠ cfg.PCPU_AFF_NONE then Outcome.ret (-(cfg.EINVAL : Int)) s
  else
    match alloc_pid cfg s prio (aff : Int) with
    | Outcome.fault f s1 => Outcome.fault f s1
    | Outcome.ret pid s1 =>
      if pid < 0 then Outcome.ret (-(cfg.ENOPID : Int)) s1
      else
        match __create_task cfg env s1 name func arg prio pid (aff : Int)
            cfg.TASK_STACK_SIZE opt with
        | Outcome.fault f s2 => Outcome.fault f s2
        | Outcome.ret task s2 =>
          if task = TaskPtr.null then
            match release_pid cfg s2 pid with
            | Outcome.fault f s3 => Outcome.fault f s3
            | Outcome.ret _ s3 =>
              create_task_finish cfg env s3 task (-(cfg.ENOPID : Int)) func prio
          else create_task_finish cfg env s2 task pid func prio

/-- The function `create_realtime_task`. -/
def create_realtime_task (cfg : Config) (env : Env) (s : Kernel) (name : List Nat)
    (func : Nat) (arg : Nat) (prio : Nat) (flags : Nat) : Outcome Int :=
  create_task cfg env s name func arg prio 0 flags

/-- The function `create_vcpu_task`; the `int` affinity is converted to the
16-bit parameter of `create_task`. -/
def create_vcpu_task (cfg : Config) (env : Env) (s : Kernel) (name : List Nat)
    (func : Nat) (arg : Nat) (aff : Int) (flags : Nat) : Outcome Int :=
  create_task cfg env s name func arg cfg.OS_PRIO_PCPU (aff % 65536).toNat
    (flags &&& cfg.TASK_FLAGS_VCPU)

/-- The bytes of the string "idle-task". -/
def idle_task_name : List Nat := [105, 100, 108, 101, 45, 116, 97, 115, 107]

/-- The function `create_idle_task`. -/
def create_idle_task (cfg : Config) (env : Env) (s : Kernel) : Outcome Int :=
  let aff : Int := (env.smp_processor_id : Int)
  match alloc_pid cfg s cfg.OS_PRIO_IDLE aff with
  | Outcome.fault f s1 => Outcome.fault f s1
  | Outcome.ret pid s1 =>
    if pid < -1 then Outcome.fault Fault.panic s1
    else if ¬ env.smp_processor_id < cfg.NR_CPUS then Outcome.fault (Fault.percpu_oob aff) s1
    else
      let task := s1.idle_task env.smp_processor_id
      if task = TaskPtr.null then Outcome.fault Fault.panic s1
      else if ¬ (0 ≤ pid ∧ pid < (cfg.OS_NR_TASKS : Int)) then
        Outcome.fault (Fault.table_oob pid) s1
      else
        let s2 : Kernel :=
          { s1 with os_task_table := Function.update s1.os_task_table pid.toNat task
                    os_task_nr := atomic_inc s1.os_task_nr }
        match task with
        | TaskPtr.obj t =>
          let s3 := task_init cfg s2 t idle_task_name 0 0 cfg.OS_PRIO_IDLE pid aff 0 0
          let s4 := s3.call (Call.task_vmodules_init t)
          let tk := s4.mem t
          let tk1 : Task :=
            { tk with stack_size := cfg.TASK_STACK_SIZE
                      stack_origin := env.current_sp - (cfg.TASK_INFO_SIZE : Int) }
          let tk2 : Task := { tk1 with stat := cfg.TASK_STAT_RUNNING }
          let tk3 : Task := { tk2 with flags := tk2.flags ||| cfg.TASK_FLAGS_IDLE }
          let s5 := s4.store t tk3
          let s6 : Kernel :=
            { s5 with pcpu := Function.update s5.pcpu env.smp_processor_id
                        { s5.pcpu env.smp_processor_id with idle_task := task } }
          Outcome.ret 0
            (((s6.call (Call.do_hooks task)).call (Call.set_current_prio cfg.OS_PRIO_PCPU)).call
              (Call.set_next_prio cfg.OS_PRIO_PCPU))
        | p => Outcome.fault (Fault.bad_task_ptr p) s2

/-- One round of the loop of `tasks_early_init`, for CPU `i` with the boot
stack top at `stack_base`. -/
def tasks_early_init_round (cfg : Config) (s : Kernel) (i : Nat) (stack_base : Int) : Kernel :=
  let task := TaskRef.idle i
  let s1 := s.store task Task.zero
  let s2 : Kernel :=
    { s1 with idle_task := Function.update s1.idle_task i (TaskPtr.obj task)
              __current_tasks := Function.update s1.__current_tasks i (TaskPtr.obj task)
              __next_tasks := Function.update s1.__next_tasks i (TaskPtr.obj task) }
  s2.call (Call.task_info_init (stack_base - (cfg.TASK_INFO_SIZE : Int)) task (i : Int))

/-- The loop of `tasks_early_init`: `n` more rounds starting at CPU `i`. -/
def tasks_early_init_loop (cfg : Config) : Nat → Nat → Int → Kernel → Kernel
  | 0, _, _, s => s
  | n + 1, i, stack_base, s =>
    tasks_early_init_loop cfg n (i + 1) (stack_base - (cfg.TASK_STACK_SIZE : Int))
      (tasks_early_init_round cfg s i stack_base)

/-- The function `tasks_early_init()`. -/
def tasks_early_init (cfg : Config) (s : Kernel) : Outcome Int :=
  Outcome.ret 0
    (tasks_early_init_loop cfg cfg.NR_CPUS 0 (cfg.CONFIG_MINOS_ENTRY_ADDRESS : Int) s)

/-! ## Timeout and cross-CPU wake-up -/

/-- The C expression `x & ~m`: the bits of `x` that are not in `m`. -/
def and_not (x m : Nat) : Nat := x ^^^ (x &&& m)

/-- Modelled from the spec: the macro `is_task_pending(task)` holds for a task
blocked on an event, one whose `stat` has a `TASK_STAT_PEND_ANY` bit. -/
def is_task_pending (cfg : Config) (t : Task) : Bool :=
  decide (t.stat &&& cfg.TASK_STAT_PEND_ANY ≠ 0)

/-- Modelled from the spec: the macro `is_percpu_task(task)` holds for a task
of priority `OS_PRIO_PCPU`. -/
def is_percpu_task (cfg : Config) (t : Task) : Bool := decide (t.prio = cfg.OS_PRIO_PCPU)

/-- The function `task_timeout_handler(data)`, `data` being the task. -/
def task_timeout_handler (cfg : Config) (s : Kernel) (task : TaskRef) : Outcome Unit :=
  if is_task_pending cfg (s.mem task) then
    let s1 := s.store task { s.mem task with delay := 0 }
    let s2 := s1.call (Call.set_task_ready task)
    let s3 := s2.store task
      { s2.mem task with stat := and_not (s2.mem task).stat cfg.TASK_STAT_SUSPEND }
    let s4 := s3.store task
      { s3.mem task with stat := and_not (s3.mem task).stat cfg.TASK_STAT_PEND_ANY }
    let s5 := s4.store task { s4.mem task with pend_stat := cfg.TASK_STAT_PEND_TO }
    Outcome.ret () (s5.call Call.set_need_resched)
  else
    if (s.mem task).delay ≠ 0 then
      let s1 := s.store task { s.mem task with delay := 0 }
      let s2 := s1.call (Call.set_task_ready task)
      let s3 := s2.store task
        { s2.mem task with stat := and_not (s2.mem task).stat cfg.TASK_STAT_SUSPEND }
      Outcome.ret () (s3.call Call.set_need_resched)
    else Outcome.ret () (s.call Call.pr_warn)

/-- The `switch (ev->action)` of `task_ipi_event_handler` (lines 274 to 301). -/
def task_ipi_event_action (cfg : Config) (s : Kernel) (ev : TaskEvent) (task : TaskRef) :
    Kernel :=
  if ev.action = cfg.TASK_EVENT_EVENT_READY then
    if ¬ is_task_pending cfg (s.mem task) then s
    else
      let s1 := s.store task { s.mem task with msg := ev.msg }
      let s2 := s1.store task { s1.mem task with stat := and_not (s1.mem task).stat ev.msk }
      let s3 := s2.store task { s2.mem task with wait_event := 0 }
      (s3.call (Call.set_task_ready task)).call Call.set_need_resched
  else if ev.action = cfg.TASK_EVENT_FLAG_READY then
    if ¬ is_task_pending cfg (s.mem task) then s
    else
      let s1 := s.store task { s.mem task with delay := 0 }
      let s2 := s1.store task { s1.mem task with flags_rdy := ev.flags }
      let s3 := s2.store task { s2.mem task with stat := (s2.mem task).stat &&& ev.msk }
      s3.call Call.set_need_resched
  else s

/-- The function `task_ipi_event_handler(data)`; `data` points to an event of
the pool, given by its index, or is `NULL`. -/
def task_ipi_event_handler (cfg : Config) (env : Env) (s : Kernel) (data : Option Nat) :
    Outcome Unit :=
  match data with
  | none => Outcome.fault Fault.bad_event_ptr (s.call Call.pr_err)
  | some e =>
    match (s.task_events e).task with
    | TaskPtr.obj task =>
      if (s.mem task).affinity ≠ (env.smp_processor_id : Int) ∨
          ¬ is_percpu_task cfg (s.mem task) then
        release_task_event cfg s e
      else
        release_task_event cfg (task_ipi_event_action cfg s (s.task_events e) task) e
    | p => Outcome.fault (Fault.bad_task_ptr p) s

/-! ## Creation on every CPU -/

/-- The loop of `create_percpu_task`.  Modelled from the spec:
`for_each_online_cpu` visits the online CPUs; each round is given by the CPU
it visits and by what its `create_task` call reads from its surroundings. -/
def create_percpu_task_loop (cfg : Config) (name : List Nat) (func arg flags : Nat) :
    List (Nat × Env) → Kernel → Outcome Unit
  | [], s => Outcome.ret () s
  | (cpu, env) :: rest, s =>
    match create_task cfg env s name func arg cfg.OS_PRIO_PCPU cpu flags with
    | Outcome.fault f s1 => Outcome.fault f s1
    | Outcome.ret r s1 =>
      create_percpu_task_loop cfg name func arg flags rest
        (if r < 0 then s1.call Call.pr_err else s1)

/-- The function `create_percpu_task`. -/
def create_percpu_task (cfg : Config) (rounds : List (Nat × Env)) (s : Kernel)
    (name : List Nat) (func arg flags : Nat) : Outcome Int :=
  match create_percpu_task_loop cfg name func arg flags rounds s with
  | Outcome.fault f s1 => Outcome.fault f s1
  | Outcome.ret _ s1 => Outcome.ret 0 s1

/-! ## Runs of several calls -/

/-- The given number of successive `alloc_task_event` calls; the returned
pointers in call order. -/
def alloc_task_event_times (cfg : Config) : Nat → Kernel → Outcome (List (Option Nat))
  | 0, s => Outcome.ret [] s
  | n + 1, s =>
    match alloc_task_event cfg s with
    | Outcome.fault f s1 => Outcome.fault f s1
    | Outcome.ret r s1 =>
      match alloc_task_event_times cfg n s1 with
      | Outcome.fault f s2 => Outcome.fault f s2
      | Outcome.ret rs s2 => Outcome.ret (r :: rs) s2

/-- One `create_idle_task` call per entry of the list, in order; each entry
says on which CPU the call runs and what it reads there. -/
def create_idle_task_each (cfg : Config) : List Env → Kernel → Outcome Unit
  | [], s => Outcome.ret () s
  | env :: rest, s =>
    match create_idle_task cfg env s with
    | Outcome.fault f s1 => Outcome.fault f s1
    | Outcome.ret _ s1 => create_idle_task_each cfg rest s1

/-! ## Reachable states of the identity table -/

/-- Whether a table entry holds a task: it is neither `NULL` nor
`OS_TASK_RESERVED`. -/
def TaskPtr.is_task : TaskPtr → Bool
  | TaskPtr.obj _ => true
  | _ => false

/-- The number of indices below `n` whose entry holds a task. -/
def table_count (n : Nat) (table : Nat → TaskPtr) : Nat :=
  ((Finset.range n).filter (fun i => (table i).is_task = true)).card

/-- The number of indices `i` with `os_task_table[i]` neither `NULL` nor
`OS_TASK_RESERVED`. -/
def task_count (cfg : Config) (s : Kernel) : Nat := table_count cfg.OS_NR_TASKS s.os_task_table

/-- An initial state: every identity free, every slot `NULL`, the counter 0. -/
def Initial (s : Kernel) : Prop :=
  (∀ i, s.pid_map i = false) ∧ (∀ i, s.os_task_table i = TaskPtr.null) ∧ s.os_task_nr = 0

/-- The two states have the same identity bitmap, table and counter. -/
def SameIds (s s1 : Kernel) : Prop :=
  s1.pid_map = s.pid_map ∧ s1.os_task_table = s.os_task_table ∧ s1.os_task_nr = s.os_task_nr

/-- From `s` to `s1` one free identity was claimed, a task was stored in its
slot and the counter was incremented. -/
def Installs (cfg : Config) (s s1 : Kernel) : Prop :=
  ∃ (p : Nat) (t : TaskRef), p < cfg.OS_NR_TASKS ∧ s.pid_map p = false ∧
    s1.pid_map = Function.update s.pid_map p true ∧
    s1.os_task_table = Function.update s.os_task_table p (TaskPtr.obj t) ∧
    s1.os_task_nr = atomic_inc s.os_task_nr

/-- The invariant behind the counter: a free identity has a `NULL` slot, and
the counter equals the number of slots that hold a task. -/
def CounterInv (cfg : Config) (s : Kernel) : Prop :=
  (∀ i, i < cfg.OS_NR_TASKS → s.pid_map i = false → s.os_task_table i = TaskPtr.null) ∧
  s.os_task_nr = (task_count cfg s : Int)

/-- One returning call of `alloc_pid`, `release_pid`, `create_task` or
`create_idle_task`.  The parameter `allowed` says in which states
`release_pid` may be called on which pid. -/
inductive Step (cfg : Config) (allowed : Kernel → Int → Prop) : Kernel → Kernel → Prop where
  | alloc (s s1 : Kernel) (prio : Nat) (cpuid pid : Int)
      (h : alloc_pid cfg s prio cpuid = Outcome.ret pid s1) : Step cfg allowed s s1
  | release (s s1 : Kernel) (pid : Int) (ha : allowed s pid)
      (h : release_pid cfg s pid = Outcome.ret () s1) : Step cfg allowed s s1
  | create (s s1 : Kernel) (env : Env) (name : List Nat) (func arg prio aff opt : Nat)
      (r : Int) (h : create_task cfg env s name func arg prio aff opt = Outcome.ret r s1) :
      Step cfg allowed s s1
  | idle (s s1 : Kernel) (env : Env) (r : Int)
      (h : create_idle_task cfg env s = Outcome.ret r s1) : Step cfg allowed s s1

/-- The states reached from an initial state by a sequence of such calls. -/
inductive Reachable (cfg : Config) (allowed : Kernel → Int → Prop) : Kernel → Prop where
  | init (s : Kernel) (h : Initial s) : Reachable cfg allowed s
  | step (s s1 : Kernel) (hs : Reachable cfg allowed s) (h : Step cfg allowed s s1) :
      Reachable cfg allowed s1

/-- No restriction on `release_pid`. -/
def any_release : Kernel → Int → Prop := fun _ _ => True

/-- The restriction that `release_pid` is not called on the pid of an
installed task: the slot of the pid holds `NULL` or `OS_TASK_RESERVED`. -/
def release_of_free_slot : Kernel → Int → Prop :=
  fun s pid => (s.os_task_table pid.toNat).is_task = false

/-! ## Idle tasks in place -/

/-- CPU `c` has its idle task in place, with a pid among the first `k` of the
dense region: `pcpu(c).idle_task` points to `idle_tasks[c]`, the pid of that
record indexes a table slot holding the record, and the record has the IDLE
flag, priority `OS_PRIO_IDLE` and `stat == TASK_STAT_RUNNING`. -/
def IdleInstalled (cfg : Config) (s : Kernel) (k c : Nat) : Prop :=
  (s.pcpu c).idle_task = TaskPtr.obj (TaskRef.idle c) ∧
  ∃ p : Nat, (s.mem (TaskRef.idle c)).pid = (p : Int) ∧
    cfg.OS_REALTIME_TASK ≤ p ∧ p < cfg.OS_REALTIME_TASK + k ∧
    s.os_task_table p = TaskPtr.obj (TaskRef.idle c) ∧
    (s.mem (TaskRef.idle c)).flags &&& cfg.TASK_FLAGS_IDLE = cfg.TASK_FLAGS_IDLE ∧
    (s.mem (TaskRef.idle c)).prio = cfg.OS_PRIO_IDLE ∧
    (s.mem (TaskRef.idle c)).stat = cfg.TASK_STAT_RUNNING

/-- The state while the CPUs create their idle tasks, those of `done` having
done so: the first `done.length` identities of the dense region are taken
and the others free, the counter is `done.length`, every per-CPU `idle_task`
variable points to its static record, and exactly the CPUs of `done` have
their idle task in place. -/
def IdleInv (cfg : Config) (s : Kernel) (done : List Nat) : Prop :=
  (∀ i, cfg.OS_REALTIME_TASK ≤ i → i < cfg.OS_REALTIME_TASK + done.length →
    s.pid_map i = true) ∧
  (∀ i, cfg.OS_REALTIME_TASK + done.length ≤ i → i < cfg.OS_NR_TASKS →
    s.pid_map i = false) ∧
  s.os_task_nr = (done.length : Int) ∧
  (∀ c, c < cfg.NR_CPUS → s.idle_task c = TaskPtr.obj (TaskRef.idle c)) ∧
  (∀ c, c < cfg.NR_CPUS → c ∉ done → (s.pcpu c).idle_task = TaskPtr.null) ∧
  (∀ c, c ∈ done → IdleInstalled cfg s done.length c)

/-! ## A sample configuration -/

/-- A configuration with 64 real-time priorities, 512 identities and 4 CPUs. -/
def sampleConfig : Config :=
  { OS_NR_TASKS := 512, OS_REALTIME_TASK := 64, OS_LOWEST_PRIO := 63,
    OS_PRIO_PCPU := 64, OS_PRIO_IDLE := 65, NR_CPUS := 4,
    PCPU_AFF_NONE := 65535, PCPU_AFF_PERCPU := 65280, BITS_PER_LONG := 64,
    TASK_FLAGS_VCPU := 2, TASK_FLAGS_IDLE := 1,
    TASK_STAT_RDY := 0, TASK_STAT_RUNNING := 256, TASK_STAT_SUSPEND := 8,
    TASK_STAT_PEND_ANY := 55, TASK_STAT_PEND_TO := 1,
    TASK_STACK_SIZE := 8192, PAGE_SIZE := 4096, TASK_INFO_SIZE := 16,
    TASK_NAME_SIZE := 32, CONFIG_TASK_RUN_TIME := 100,
    CONFIG_MINOS_ENTRY_ADDRESS := 1073741824, TASK_EVENT_EVENT_READY := 0,
    TASK_EVENT_FLAG_READY := 1, EINVAL := 22, ENOPID := 200 }

/-- A call on CPU 0 with the scheduler running and both allocators
succeeding. -/
def sampleEnv : Env :=
  { smp_processor_id := 0, os_is_running := true, zalloc := some 4096,
    get_free_pages := 1048576, current_sp := 1073741824 }

/-- The sample call with `zalloc` returning `NULL`. -/
def recordOomEnv : Env := { sampleEnv with zalloc := none }

/-- The sample call with `__get_free_pages` returning `NULL`. -/
def stackOomEnv : Env := { sampleEnv with get_free_pages := 0 }

/-- The boot state after one task of priority `OS_PRIO_PCPU` was created on
CPU 0. -/
def oneTaskState : Kernel :=
  (create_task sampleConfig sampleEnv Kernel.boot [119] 7 0 64 0 0).state

/-- The state after `release_pid(64)` in `oneTaskState`. -/
def releasedState : Kernel := (release_pid sampleConfig oneTaskState 64).state

/-- A per-CPU task homed on CPU 0 that waits for an event with a timeout of
10 ticks still to run. -/
def pendingTask : Task :=
  { Task.zero with pid := 64, prio := 64, stat := 1, delay := 10, affinity := 0 }

/-- An `EVENT_READY` event for the task at address 4096, in slot 0 of the
pool; its mask covers every pending bit. -/
def readyEvent : TaskEvent :=
  { id := 0, action := 0, task := TaskPtr.obj (TaskRef.heap 4096), msg := 42, msk := 55,
    flags := 0 }

/-- The state in which `pendingTask` is blocked and `readyEvent` is on its way
to CPU 0. -/
def pendingState : Kernel :=
  { Kernel.boot with
      mem := Function.update Kernel.boot.mem (TaskRef.heap 4096) pendingTask
      task_events := Function.update Kernel.boot.task_events 0 readyEvent
      task_event_map := Function.update Kernel.boot.task_event_map 0 true }

/-- The state after the event was delivered on CPU 0. -/
def eventFirstState : Kernel :=
  (task_ipi_event_handler sampleConfig sampleEnv pendingState (some 0)).state

/-- The state after the timer fired as well. -/
def eventThenTimeoutState : Kernel :=
  (task_timeout_handler sampleConfig eventFirstState (TaskRef.heap 4096)).state

/-- The boot state after `tasks_early_init`. -/
def earlyState : Kernel := (tasks_early_init sampleConfig Kernel.boot).state

/-- The state after CPU 0 created its idle task. -/
def idleOnceState : Kernel := (create_idle_task sampleConfig sampleEnv earlyState).state

/-- The sample configuration on a system with 2 CPUs. -/
def twoCpuConfig : Config := { sampleConfig with NR_CPUS := 2 }

/-- A second call on CPU 0, for which `zalloc` hands out the record at 8192
and the page allocator the region at 2097152. -/
def secondEnv : Env := { sampleEnv with zalloc := some 8192, get_free_pages := 2097152 }

/-- The sample call, made on CPU `c`. -/
def cpuEnv (c : Nat) : Env := { sampleEnv with smp_processor_id := c }

/-- One call on each of the 4 CPUs of the sample configuration, CPU 1 being
the first to make it. -/
def bringUpEnvs : List Env := [cpuEnv 1, cpuEnv 0, cpuEnv 3, cpuEnv 2]

/-! ## Facts about the bitmap helpers -/

theorem scan_zero_bit_spec (map : Nat → Bool) :
    ∀ (n offset : Nat),
      offset ≤ scan_zero_bit map offset n ∧
      scan_zero_bit map offset n ≤ offset + n ∧
      (∀ j, offset ≤ j → j < scan_zero_bit map offset n → map j = true) ∧
      (scan_zero_bit map offset n < offset + n →
        map (scan_zero_bit map offset n) = false) := by
  intro n
  induction n with
  | zero =>
    intro offset
    simp only [scan_zero_bit]
    refine ⟨le_refl _, le_refl _, ?_, ?_⟩
    · intro j h1 h2; omega
    · intro h; omega
  | succ n ih =>
    intro offset
    cases hb : map offset with
    | false =>
      have e : scan_zero_bit map offset (n + 1) = offset := by
        simp [scan_zero_bit, hb]
      rw [e]
      refine ⟨le_refl _, by omega, ?_, fun _ => hb⟩
      intro j h1 h2; omega
    | true =>
      have e : scan_zero_bit map offset (n + 1) = scan_zero_bit map (offset + 1) n := by
        simp [scan_zero_bit, hb]
      rw [e]
      obtain ⟨h1, h2, h3, h4⟩ := ih (offset + 1)
      refine ⟨by omega, by omega, ?_, ?_⟩
      · intro j hj1 hj2
        by_cases hj : j = offset
        · subst hj; exact hb
        · exact h3 j (by omega) hj2
      · intro h; exact h4 (by omega)

theorem find_next_zero_bit_le (map : Nat → Bool) (size offset : Nat) :
    find_next_zero_bit map size offset ≤ size := by
  unfold find_next_zero_bit
  split
  · exact le_refl _
  · have h := (scan_zero_bit_spec map (size - offset) offset).2.1
    omega

theorem find_next_zero_bit_least (map : Nat → Bool) (size offset p : Nat)
    (h1 : offset ≤ p) (h2 : p < size) (h3 : map p = false)
    (h4 : ∀ q, offset ≤ q → q < p → map q = true) :
    find_next_zero_bit map size offset = p := by
  unfold find_next_zero_bit
  rw [if_neg (by omega)]
  obtain ⟨a, b, c, d⟩ := scan_zero_bit_spec map (size - offset) offset
  rcases Nat.lt_trichotomy (scan_zero_bit map offset (size - offset)) p with h | h | h
  · have e1 := d (by omega)
    have e2 := h4 _ a h
    rw [e1] at e2; cases e2
  · exact h
  · have e := c p h1 h
    rw [h3] at e; cases e

theorem find_next_zero_bit_full (map : Nat → Bool) (size offset : Nat)
    (h : ∀ p, offset ≤ p → p < size → map p = true) :
    find_next_zero_bit map size offset = size := by
  unfold find_next_zero_bit
  split
  · rfl
  · obtain ⟨a, b, c, d⟩ := scan_zero_bit_spec map (size - offset) offset
    by_contra hne
    have hlt : scan_zero_bit map offset (size - offset) < offset + (size - offset) := by omega
    have e1 := d hlt
    have e2 := h _ a (by omega)
    rw [e1] at e2; cases e2

theorem le_bitmap_bits (cfg : Config) (h : 0 < cfg.BITS_PER_LONG) (nbits : Nat) :
    nbits ≤ bitmap_bits cfg nbits := by
  unfold bitmap_bits BITS_TO_LONGS
  have := Nat.lt_div_mul_add (a := nbits + cfg.BITS_PER_LONG - 1) h
  omega

theorem bit_in_bounds_of_lt (cfg : Config) (h : 0 < cfg.BITS_PER_LONG) (nbits n : Nat)
    (hn : n < nbits) : bit_in_bounds cfg nbits (n : Int) = true := by
  have := le_bitmap_bits cfg h nbits
  simp only [bit_in_bounds, Bool.and_eq_true, decide_eq_true_eq]
  constructor <;> omega

theorem find_next_zero_bit_clear (map : Nat → Bool) (size offset : Nat)
    (h : find_next_zero_bit map size offset < size) :
    map (find_next_zero_bit map size offset) = false := by
  unfold find_next_zero_bit at h ⊢
  by_cases ho : offset ≥ size
  · rw [if_pos ho] at h; omega
  · rw [if_neg ho] at h ⊢
    exact (scan_zero_bit_spec map (size - offset) offset).2.2.2 (by omega)

theorem kernel_pid_map_self (s : Kernel) : { s with pid_map := s.pid_map } = s := by
  cases s; rfl

theorem alloc_pid_scan_least (cfg : Config) (s : Kernel) (hbits : 0 < cfg.BITS_PER_LONG)
    (p : Nat) (h1 : cfg.OS_REALTIME_TASK ≤ p) (h2 : p < cfg.OS_NR_TASKS)
    (h3 : s.pid_map p = false)
    (h4 : ∀ q, cfg.OS_REALTIME_TASK ≤ q → q < p → s.pid_map q = true) :
    alloc_pid_scan cfg s =
      Outcome.ret (p : Int) { s with pid_map := Function.update s.pid_map p true } := by
  have hf := find_next_zero_bit_least s.pid_map cfg.OS_NR_TASKS cfg.OS_REALTIME_TASK p h1 h2 h3 h4
  have hb := bit_in_bounds_of_lt cfg hbits cfg.OS_NR_TASKS p h2
  simp only [alloc_pid_scan, hf, set_bit, hb, if_true, Int.toNat_ofNat]
  rw [if_neg (by omega)]

theorem alloc_pid_scan_full (cfg : Config) (s : Kernel)
    (h : ∀ p, cfg.OS_REALTIME_TASK ≤ p → p < cfg.OS_NR_TASKS → s.pid_map p = true) :
    alloc_pid_scan cfg s = Outcome.ret (-1) s := by
  have hf := find_next_zero_bit_full s.pid_map cfg.OS_NR_TASKS cfg.OS_REALTIME_TASK h
  simp only [alloc_pid_scan, hf]
  rw [if_pos (le_refl _)]

theorem alloc_pid_eq_scan (cfg : Config) (s : Kernel) (prio : Nat) (cpuid : Int)
    (hprio : prio > cfg.OS_LOWEST_PRIO)
    (hidle : prio = cfg.OS_PRIO_IDLE →
      0 ≤ cpuid ∧ cpuid < (cfg.NR_CPUS : Int) ∧
        (s.pcpu cpuid.toNat).idle_task = TaskPtr.null) :
    alloc_pid cfg s prio cpuid = alloc_pid_scan cfg s := by
  unfold alloc_pid
  rw [if_pos hprio]
  by_cases hi : prio = cfg.OS_PRIO_IDLE
  · obtain ⟨a, b, c⟩ := hidle hi
    rw [if_pos hi]
    simp [pcpu_of, a, b, c]
  · rw [if_neg hi]

theorem alloc_pid_rt_free (cfg : Config) (s : Kernel) (prio : Nat) (cpuid : Int)
    (hbits : 0 < cfg.BITS_PER_LONG) (hcfg : cfg.OS_LOWEST_PRIO < cfg.OS_NR_TASKS)
    (hprio : prio ≤ cfg.OS_LOWEST_PRIO) (h : s.pid_map prio = false) :
    alloc_pid cfg s prio cpuid =
      Outcome.ret (prio : Int)
        { s with pid_map := Function.update s.pid_map prio true
                 os_task_table := Function.update s.os_task_table prio TaskPtr.reserved } := by
  have hlt : prio < cfg.OS_NR_TASKS := by omega
  have hb := bit_in_bounds_of_lt cfg hbits cfg.OS_NR_TASKS prio hlt
  have hnot : ¬ prio > cfg.OS_LOWEST_PRIO := by omega
  simp only [alloc_pid, hnot, if_false, test_and_set_bit, hb, if_true, Int.toNat_ofNat, h, hlt]

theorem alloc_pid_rt_taken (cfg : Config) (s : Kernel) (prio : Nat) (cpuid : Int)
    (hbits : 0 < cfg.BITS_PER_LONG) (hcfg : cfg.OS_LOWEST_PRIO < cfg.OS_NR_TASKS)
    (hprio : prio ≤ cfg.OS_LOWEST_PRIO) (h : s.pid_map prio = true) :
    alloc_pid cfg s prio cpuid = Outcome.ret (-1) s := by
  have hlt : prio < cfg.OS_NR_TASKS := by omega
  have hb := bit_in_bounds_of_lt cfg hbits cfg.OS_NR_TASKS prio hlt
  have hnot : ¬ prio > cfg.OS_LOWEST_PRIO := by omega
  have e : Function.update s.pid_map prio true = s.pid_map := by
    rw [← h]; exact Function.update_eq_self prio s.pid_map
  simp only [alloc_pid, hnot, if_false, test_and_set_bit, hb, if_true, Int.toNat_ofNat, h, e]
  simp [kernel_pid_map_self]

/-! ## The identity allocator -/

/-- C1: for a priority above `OS_LOWEST_PRIO` (and, for `OS_PRIO_IDLE`, a
target CPU without an idle task), `alloc_pid` returns the least index in
`[OS_REALTIME_TASK, OS_NR_TASKS)` whose bit is clear and sets exactly that
bit, everything else (the table included) staying as it was; when every bit
of that range is set it returns -1 in an unchanged state. -/
theorem alloc_pid_dense_region (cfg : Config) (s : Kernel) (prio : Nat) (cpuid : Int)
    (hbits : 0 < cfg.BITS_PER_LONG)
    (hprio : prio > cfg.OS_LOWEST_PRIO)
    (hidle : prio = cfg.OS_PRIO_IDLE →
      0 ≤ cpuid ∧ cpuid < (cfg.NR_CPUS : Int) ∧
        (s.pcpu cpuid.toNat).idle_task = TaskPtr.null) :
    (∀ p, cfg.OS_REALTIME_TASK ≤ p → p < cfg.OS_NR_TASKS → s.pid_map p = false →
        (∀ q, cfg.OS_REALTIME_TASK ≤ q → q < p → s.pid_map q = true) →
        alloc_pid cfg s prio cpuid =
          Outcome.ret (p : Int) { s with pid_map := Function.update s.pid_map p true }) ∧
    ((∀ p, cfg.OS_REALTIME_TASK ≤ p → p < cfg.OS_NR_TASKS → s.pid_map p = true) →
        alloc_pid cfg s prio cpuid = Outcome.ret (-1) s) := by
  rw [alloc_pid_eq_scan cfg s prio cpuid hprio hidle]
  exact ⟨fun p h1 h2 h3 h4 => alloc_pid_scan_least cfg s hbits p h1 h2 h3 h4,
    fun h => alloc_pid_scan_full cfg s h⟩

/-- C1 at the boot state of the sample configuration: the idle priority on
CPU 0 obtains identity 64. -/
theorem alloc_pid_dense_region_witness :
    alloc_pid sampleConfig Kernel.boot 65 0 =
      Outcome.ret 64
        { Kernel.boot with pid_map := Function.update Kernel.boot.pid_map 64 true } :=
  (alloc_pid_dense_region sampleConfig Kernel.boot 65 0 (by decide) (by decide)
    (fun _ => ⟨by decide, by decide, rfl⟩)).1 64 (by decide) (by decide) rfl
    (fun q h1 h2 => absurd h2 (Nat.not_lt.mpr h1))

/-- C2: for a priority at or below `OS_LOWEST_PRIO`, `alloc_pid` returns the
priority, sets its bit and stores `OS_TASK_RESERVED` in its table slot when
the bit was clear, changing nothing else; when the bit was already set it
returns -1 in an unchanged state. -/
theorem alloc_pid_reserved_region (cfg : Config) (s : Kernel) (prio : Nat) (cpuid : Int)
    (hbits : 0 < cfg.BITS_PER_LONG)
    (hcfg : cfg.OS_LOWEST_PRIO < cfg.OS_NR_TASKS)
    (hprio : prio ≤ cfg.OS_LOWEST_PRIO) :
    (s.pid_map prio = false →
        alloc_pid cfg s prio cpuid =
          Outcome.ret (prio : Int)
            { s with pid_map := Function.update s.pid_map prio true
                     os_task_table :=
                       Function.update s.os_task_table prio TaskPtr.reserved }) ∧
    (s.pid_map prio = true → alloc_pid cfg s prio cpuid = Outcome.ret (-1) s) := by
  exact ⟨alloc_pid_rt_free cfg s prio cpuid hbits hcfg hprio,
    alloc_pid_rt_taken cfg s prio cpuid hbits hcfg hprio⟩

/-- C2 at the boot state of the sample configuration: priority 5 obtains
identity 5 and its slot is reserved. -/
theorem alloc_pid_reserved_region_witness :
    alloc_pid sampleConfig Kernel.boot 5 0 =
      Outcome.ret 5
        { Kernel.boot with
            pid_map := Function.update Kernel.boot.pid_map 5 true
            os_task_table :=
              Function.update Kernel.boot.os_task_table 5 TaskPtr.reserved } :=
  (alloc_pid_reserved_region sampleConfig Kernel.boot 5 0 (by decide) (by decide)
    (by decide)).1 rfl

/-- C3: when `alloc_pid` succeeds with `pid`, an immediate `release_pid(pid)`
returns and brings `pid_map` back to what it was before the allocation. -/
theorem alloc_pid_release_pid_roundtrip (cfg : Config) (s s1 : Kernel) (prio : Nat)
    (cpuid : Int) (pid : Int)
    (halloc : alloc_pid cfg s prio cpuid = Outcome.ret pid s1) (hpid : 0 ≤ pid) :
    ∃ s2, release_pid cfg s1 pid = Outcome.ret () s2 ∧ s2.pid_map = s.pid_map := by
  have key : ∀ (p : Nat), (p : Int) = pid → p < cfg.OS_NR_TASKS →
      bit_in_bounds cfg cfg.OS_NR_TASKS (p : Int) = true → s.pid_map p = false →
      s1.pid_map = Function.update s.pid_map p true →
      ∃ s2, release_pid cfg s1 pid = Outcome.ret () s2 ∧ s2.pid_map = s.pid_map := by
    intro p hp hlt hb hclear hmap
    subst hp
    have h1 : ¬ ((p : Int) > (cfg.OS_NR_TASKS : Int)) := by omega
    have h2 : 0 ≤ (p : Int) ∧ (p : Int) < (cfg.OS_NR_TASKS : Int) := by omega
    refine ⟨{ s1 with
        pid_map := Function.update s1.pid_map p false
        os_task_table := Function.update s1.os_task_table p TaskPtr.null }, ?_, ?_⟩
    · simp only [release_pid, h1, if_false, clear_bit, hb, if_true, h2, and_self,
        Int.toNat_ofNat]
    · simp only [hmap, Function.update_idem]
      rw [← hclear]; exact Function.update_eq_self p s.pid_map
  have scan : ∀ {t : Kernel}, alloc_pid_scan cfg s = Outcome.ret pid t → t = s1 →
      ∃ s2, release_pid cfg s1 pid = Outcome.ret () s2 ∧ s2.pid_map = s.pid_map := by
    intro t ht hts
    subst hts
    unfold alloc_pid_scan at ht
    simp only at ht
    by_cases hge : find_next_zero_bit s.pid_map cfg.OS_NR_TASKS cfg.OS_REALTIME_TASK
        ≥ cfg.OS_NR_TASKS
    · rw [if_pos hge] at ht
      injection ht with hv _
      omega
    · rw [if_neg hge] at ht
      unfold set_bit at ht
      by_cases hb : bit_in_bounds cfg cfg.OS_NR_TASKS
          ((find_next_zero_bit s.pid_map cfg.OS_NR_TASKS cfg.OS_REALTIME_TASK : Nat) : Int)
          = true
      · rw [if_pos hb] at ht
        simp only [Int.toNat_ofNat] at ht
        injection ht with hv hs
        exact key _ hv (by omega) hb
          (find_next_zero_bit_clear _ _ _ (by omega)) (by rw [← hs])
      · rw [if_neg hb] at ht
        cases ht
  unfold alloc_pid at halloc
  by_cases hprio : prio > cfg.OS_LOWEST_PRIO
  · rw [if_pos hprio] at halloc
    by_cases hi : prio = cfg.OS_PRIO_IDLE
    · rw [if_pos hi] at halloc
      cases hp : pcpu_of cfg s cpuid with
      | none => rw [hp] at halloc; cases halloc
      | some pc =>
        rw [hp] at halloc
        simp only at halloc
        by_cases hidle : pc.idle_task ≠ TaskPtr.null
        · rw [if_pos hidle] at halloc
          injection halloc with hv _
          omega
        · rw [if_neg hidle] at halloc
          exact scan halloc rfl
    · rw [if_neg hi] at halloc
      exact scan halloc rfl
  · rw [if_neg hprio] at halloc
    unfold test_and_set_bit at halloc
    by_cases hb : bit_in_bounds cfg cfg.OS_NR_TASKS (prio : Int) = true
    · rw [if_pos hb] at halloc
      simp only [Int.toNat_ofNat] at halloc
      cases hold : s.pid_map prio with
      | true =>
        rw [hold] at halloc
        simp only [Bool.true_eq_false, if_false] at halloc
        injection halloc with hv _
        omega
      | false =>
        rw [hold] at halloc
        simp only [if_true] at halloc
        by_cases hlt : prio < cfg.OS_NR_TASKS
        · rw [if_pos hlt] at halloc
          injection halloc with hv hs
          exact key prio hv hlt hb hold (by rw [← hs])
        · rw [if_neg hlt] at halloc
          cases halloc
    · rw [if_neg hb] at halloc
      cases halloc

/-- C3 at the boot state of the sample configuration, for the real-time
priority 5. -/
theorem alloc_pid_release_pid_roundtrip_witness :
    ∃ s2, release_pid sampleConfig
        { Kernel.boot with
            pid_map := Function.update Kernel.boot.pid_map 5 true
            os_task_table :=
              Function.update Kernel.boot.os_task_table 5 TaskPtr.reserved } 5
          = Outcome.ret () s2 ∧ s2.pid_map = Kernel.boot.pid_map :=
  alloc_pid_release_pid_roundtrip sampleConfig Kernel.boot _ 5 0 5 rfl (by decide)

/-- C4: at the negative identity -1 the bound check of `pid_to_task` does
not fire and the function indexes `os_task_table[-1]`. -/
theorem pid_to_task_negative_index (cfg : Config) (s : Kernel) :
    pid_to_task cfg s (-1) = Outcome.fault (Fault.table_oob (-1)) s := by
  have h1 : ¬ ((-1 : Int) ≥ (cfg.OS_NR_TASKS : Int)) := by omega
  simp only [pid_to_task, h1, if_false]
  rfl

/-- C5: at `pid == OS_NR_TASKS` the guard of `release_pid` does not fire; the
function goes on to clear bit `OS_NR_TASKS` and to write
`os_task_table[OS_NR_TASKS]`, one past the end of the table. -/
theorem release_pid_at_OS_NR_TASKS (cfg : Config) (s : Kernel) :
    release_pid cfg s (cfg.OS_NR_TASKS : Int) =
        Outcome.fault (Fault.bitmap_oob (cfg.OS_NR_TASKS : Int)) s ∨
    release_pid cfg s (cfg.OS_NR_TASKS : Int) =
        Outcome.fault (Fault.table_oob (cfg.OS_NR_TASKS : Int))
          { s with pid_map := Function.update s.pid_map cfg.OS_NR_TASKS false } := by
  have h1 : ¬ ((cfg.OS_NR_TASKS : Int) > (cfg.OS_NR_TASKS : Int)) := by omega
  have h2 : ¬ (0 ≤ (cfg.OS_NR_TASKS : Int) ∧
      (cfg.OS_NR_TASKS : Int) < (cfg.OS_NR_TASKS : Int)) := by omega
  cases hb : bit_in_bounds cfg cfg.OS_NR_TASKS (cfg.OS_NR_TASKS : Int) with
  | false =>
    left
    simp [release_pid, clear_bit, hb]
  | true =>
    right
    simp [release_pid, clear_bit, hb]

/-! ## The event slot pool -/

theorem task_events_init_loop_spec :
    ∀ (n i : Nat) (events : Nat → TaskEvent) (j : Nat),
      (i ≤ j → j < i + n → (task_events_init_loop n i events j).id = (j : Int)) ∧
      (j < i → task_events_init_loop n i events j = events j) := by
  intro n
  induction n with
  | zero =>
    intro i events j
    exact ⟨fun h1 h2 => by omega, fun _ => rfl⟩
  | succ n ih =>
    intro i events j
    simp only [task_events_init_loop]
    obtain ⟨a, b⟩ := ih (i + 1) (Function.update events i { events i with id := (i : Int) }) j
    constructor
    · intro h1 h2
      by_cases hj : j = i
      · subst hj
        rw [b (by omega), Function.update_same]
      · exact a (by omega) (by omega)
    · intro h
      rw [b (by omega), Function.update_noteq (by omega)]

theorem task_events_init_ids (s : Kernel) (i : Nat) (h : i < NR_TASK_EVENT) :
    ((task_events_init s).state.task_events i).id = (i : Int) := by
  have := (task_events_init_loop_spec NR_TASK_EVENT 0 s.task_events i).1 (Nat.zero_le _)
    (by omega)
  simpa [task_events_init, Outcome.state] using this

/-- C10: in a pool whose descriptors carry their own index as `id`,
`alloc_task_event` claims the lowest clear bit `b` of `task_event_map`, sets
only that bit and returns `&task_events[b]`, whose `id` is `b`. -/
theorem alloc_task_event_lowest_free (cfg : Config) (s : Kernel) (b : Nat)
    (hbits : 0 < cfg.BITS_PER_LONG)
    (hid : ∀ i, i < NR_TASK_EVENT → (s.task_events i).id = (i : Int))
    (hb : b < NR_TASK_EVENT) (hclear : s.task_event_map b = false)
    (hleast : ∀ j, j < b → s.task_event_map j = true) :
    alloc_task_event cfg s =
        Outcome.ret (some b)
          { s with task_event_map := Function.update s.task_event_map b true } ∧
    ((alloc_task_event cfg s).state.task_events b).id = (b : Int) := by
  have hf := find_next_zero_bit_least s.task_event_map NR_TASK_EVENT 0 b (Nat.zero_le _) hb
    hclear (fun q _ h => hleast q h)
  have hbb := bit_in_bounds_of_lt cfg hbits NR_TASK_EVENT b hb
  have e : alloc_task_event cfg s =
      Outcome.ret (some b)
        { s with task_event_map := Function.update s.task_event_map b true } := by
    simp only [alloc_task_event, hf, hb, if_true, set_bit, hbb, Int.toNat_ofNat]
  refine ⟨e, ?_⟩
  rw [e]
  exact hid b hb

/-- C10 on the pool right after `task_events_init`: slot 0 is handed out. -/
theorem alloc_task_event_lowest_free_witness :
    alloc_task_event sampleConfig (task_events_init Kernel.boot).state =
        Outcome.ret (some 0)
          { (task_events_init Kernel.boot).state with
              task_event_map :=
                Function.update (task_events_init Kernel.boot).state.task_event_map 0 true } ∧
    ((alloc_task_event sampleConfig (task_events_init Kernel.boot).state).state.task_events
        0).id = ((0 : Nat) : Int) :=
  alloc_task_event_lowest_free sampleConfig (task_events_init Kernel.boot).state 0
    (by decide) (fun i h => task_events_init_ids Kernel.boot i h) (by decide) rfl
    (fun j h => absurd h (Nat.not_lt_zero j))

/-! ## Frame facts: what each step leaves alone -/

@[simp] theorem call_pid_map (s : Kernel) (c : Call) : (s.call c).pid_map = s.pid_map := rfl
@[simp] theorem call_os_task_table (s : Kernel) (c : Call) :
    (s.call c).os_task_table = s.os_task_table := rfl
@[simp] theorem call_os_task_nr (s : Kernel) (c : Call) :
    (s.call c).os_task_nr = s.os_task_nr := rfl
@[simp] theorem call_idle_task (s : Kernel) (c : Call) : (s.call c).idle_task = s.idle_task := rfl
@[simp] theorem call_pcpu (s : Kernel) (c : Call) : (s.call c).pcpu = s.pcpu := rfl
@[simp] theorem call_mem (s : Kernel) (c : Call) : (s.call c).mem = s.mem := rfl
@[simp] theorem call_log (s : Kernel) (c : Call) : (s.call c).log = s.log ++ [c] := rfl

@[simp] theorem store_pid_map (s : Kernel) (r : TaskRef) (t : Task) :
    (s.store r t).pid_map = s.pid_map := rfl
@[simp] theorem store_os_task_table (s : Kernel) (r : TaskRef) (t : Task) :
    (s.store r t).os_task_table = s.os_task_table := rfl
@[simp] theorem store_os_task_nr (s : Kernel) (r : TaskRef) (t : Task) :
    (s.store r t).os_task_nr = s.os_task_nr := rfl
@[simp] theorem store_idle_task (s : Kernel) (r : TaskRef) (t : Task) :
    (s.store r t).idle_task = s.idle_task := rfl
@[simp] theorem store_pcpu (s : Kernel) (r : TaskRef) (t : Task) :
    (s.store r t).pcpu = s.pcpu := rfl
@[simp] theorem store_mem (s : Kernel) (r : TaskRef) (t : Task) :
    (s.store r t).mem = Function.update s.mem r t := rfl
@[simp] theorem store_log (s : Kernel) (r : TaskRef) (t : Task) :
    (s.store r t).log = s.log := rfl

theorem task_init_pid_map (cfg : Config) (s : Kernel) (task : TaskRef) (name : List Nat)
    (stack : Int) (arg prio : Nat) (pid aff : Int) (stk_size opt : Nat) :
    (task_init cfg s task name stack arg prio pid aff stk_size opt).pid_map = s.pid_map := by
  simp only [task_init]; split_ifs <;> rfl

theorem task_init_os_task_table (cfg : Config) (s : Kernel) (task : TaskRef)
    (name : List Nat) (stack : Int) (arg prio : Nat) (pid aff : Int) (stk_size opt : Nat) :
    (task_init cfg s task name stack arg prio pid aff stk_size opt).os_task_table =
      s.os_task_table := by
  simp only [task_init]; split_ifs <;> rfl

theorem task_init_os_task_nr (cfg : Config) (s : Kernel) (task : TaskRef) (name : List Nat)
    (stack : Int) (arg prio : Nat) (pid aff : Int) (stk_size opt : Nat) :
    (task_init cfg s task name stack arg prio pid aff stk_size opt).os_task_nr =
      s.os_task_nr := by
  simp only [task_init]; split_ifs <;> rfl

theorem task_init_idle_task (cfg : Config) (s : Kernel) (task : TaskRef) (name : List Nat)
    (stack : Int) (arg prio : Nat) (pid aff : Int) (stk_size opt : Nat) :
    (task_init cfg s task name stack arg prio pid aff stk_size opt).idle_task =
      s.idle_task := by
  simp only [task_init]; split_ifs <;> rfl

theorem task_init_pcpu (cfg : Config) (s : Kernel) (task : TaskRef) (name : List Nat)
    (stack : Int) (arg prio : Nat) (pid aff : Int) (stk_size opt : Nat) :
    (task_init cfg s task name stack arg prio pid aff stk_size opt).pcpu = s.pcpu := by
  simp only [task_init]; split_ifs <;> rfl

theorem task_init_log (cfg : Config) (s : Kernel) (task : TaskRef) (name : List Nat)
    (stack : Int) (arg prio : Nat) (pid aff : Int) (stk_size opt : Nat) :
    (task_init cfg s task name stack arg prio pid aff stk_size opt).log =
      s.log ++ ((if stack ≠ 0 then
          [Call.task_info_init (stack - (cfg.TASK_INFO_SIZE : Int)) task aff] else []) ++
        [Call.spin_lock_init task, Call.init_timer_on_cpu task aff]) := by
  simp only [task_init]
  by_cases h : stack ≠ 0
  · simp [h]
  · simp [h]

theorem task_init_fields (cfg : Config) (s : Kernel) (task : TaskRef) (name : List Nat)
    (stack : Int) (arg prio : Nat) (pid aff : Int) (stk_size opt : Nat) :
    ((task_init cfg s task name stack arg prio pid aff stk_size opt).mem task).pid = pid ∧
    ((task_init cfg s task name stack arg prio pid aff stk_size opt).mem task).prio = prio ∧
    ((task_init cfg s task name stack arg prio pid aff stk_size opt).mem task).affinity = aff ∧
    ((task_init cfg s task name stack arg prio pid aff stk_size opt).mem task).udata = arg ∧
    ((task_init cfg s task name stack arg prio pid aff stk_size opt).mem task).flags =
      (if prio = cfg.OS_PRIO_IDLE then opt ||| cfg.TASK_FLAGS_IDLE else opt) := by
  simp only [task_init, store_mem, Function.update_same]
  split_ifs <;> simp

theorem place_task_pid_map (cfg : Config) (env : Env) (s : Kernel) (t : TaskRef)
    (prio aff : Nat) : (place_task cfg env s t prio aff).pid_map = s.pid_map := by
  simp only [place_task]; split_ifs <;> rfl

theorem place_task_os_task_table (cfg : Config) (env : Env) (s : Kernel) (t : TaskRef)
    (prio aff : Nat) : (place_task cfg env s t prio aff).os_task_table = s.os_task_table := by
  simp only [place_task]; split_ifs <;> rfl

theorem place_task_os_task_nr (cfg : Config) (env : Env) (s : Kernel) (t : TaskRef)
    (prio aff : Nat) : (place_task cfg env s t prio aff).os_task_nr = s.os_task_nr := by
  simp only [place_task]; split_ifs <;> rfl

theorem place_task_idle_task (cfg : Config) (env : Env) (s : Kernel) (t : TaskRef)
    (prio aff : Nat) : (place_task cfg env s t prio aff).idle_task = s.idle_task := by
  simp only [place_task]; split_ifs <;> rfl

theorem place_task_mem (cfg : Config) (env : Env) (s : Kernel) (t : TaskRef)
    (prio aff : Nat) : (place_task cfg env s t prio aff).mem = s.mem := by
  simp only [place_task]; split_ifs <;> rfl

theorem place_task_log (cfg : Config) (env : Env) (s : Kernel) (t : TaskRef)
    (prio aff : Nat) : (place_task cfg env s t prio aff).log = s.log := by
  simp only [place_task]; split_ifs <;> rfl

theorem activate_task_pid_map (cfg : Config) (env : Env) (s : Kernel) (t : TaskRef)
    (aff : Nat) : (activate_task cfg env s t aff).pid_map = s.pid_map := by
  simp only [activate_task]; split_ifs <;> rfl

theorem activate_task_os_task_table (cfg : Config) (env : Env) (s : Kernel) (t : TaskRef)
    (aff : Nat) : (activate_task cfg env s t aff).os_task_table = s.os_task_table := by
  simp only [activate_task]; split_ifs <;> rfl

theorem activate_task_os_task_nr (cfg : Config) (env : Env) (s : Kernel) (t : TaskRef)
    (aff : Nat) : (activate_task cfg env s t aff).os_task_nr = s.os_task_nr := by
  simp only [activate_task]; split_ifs <;> rfl

theorem activate_task_idle_task (cfg : Config) (env : Env) (s : Kernel) (t : TaskRef)
    (aff : Nat) : (activate_task cfg env s t aff).idle_task = s.idle_task := by
  simp only [activate_task]; split_ifs <;> rfl

theorem activate_task_mem (cfg : Config) (env : Env) (s : Kernel) (t : TaskRef)
    (aff : Nat) : (activate_task cfg env s t aff).mem = s.mem := by
  simp only [activate_task]; split_ifs <;> rfl

theorem activate_task_log_realtime (cfg : Config) (env : Env) (s : Kernel) (t : TaskRef)
    (aff : Nat) (hrt : (s.mem t).prio ≤ cfg.OS_LOWEST_PRIO)
    (hv : (s.mem t).flags &&& cfg.TASK_FLAGS_VCPU = 0) :
    (activate_task cfg env s t aff).log =
      s.log ++ (Call.set_task_ready t :: (if env.os_is_running then [Call.sched] else [])) := by
  simp only [activate_task, hv, if_true, is_realtime_task, hrt, decide_True, call_mem]
  split_ifs <;> simp

theorem __create_task_ok (cfg : Config) (env : Env) (s : Kernel) (name : List Nat)
    (func arg prio : Nat) (pid aff : Int) (stk_size opt a : Nat)
    (hrec : env.zalloc = some a) (hstack : env.get_free_pages ≠ 0)
    (h0 : 0 ≤ pid) (h1 : pid < (cfg.OS_NR_TASKS : Int)) :
    ∃ s1,
      __create_task cfg env s name func arg prio pid aff stk_size opt =
        Outcome.ret (TaskPtr.obj (TaskRef.heap a)) s1 ∧
      s1.pid_map = s.pid_map ∧
      s1.os_task_table =
        Function.update s.os_task_table pid.toNat (TaskPtr.obj (TaskRef.heap a)) ∧
      s1.os_task_nr = atomic_inc s.os_task_nr ∧
      s1.idle_task = s.idle_task ∧
      (s1.mem (TaskRef.heap a)).pid = pid ∧
      (s1.mem (TaskRef.heap a)).prio = prio ∧
      (s1.mem (TaskRef.heap a)).affinity =
        (if aff = (cfg.PCPU_AFF_NONE : Int) then 0
         else if aff = (cfg.PCPU_AFF_PERCPU : Int) then (env.smp_processor_id : Int)
         else aff) ∧
      (s1.mem (TaskRef.heap a)).udata = arg ∧
      (s1.mem (TaskRef.heap a)).flags =
        (if prio = cfg.OS_PRIO_IDLE then opt ||| cfg.TASK_FLAGS_IDLE else opt) ∧
      ∃ calls, s1.log = s.log ++ calls ∧
        Call.sched ∉ calls ∧ (∀ r, Call.set_task_ready r ∉ calls) := by
  have hp : 0 ≤ pid ∧ pid < (cfg.OS_NR_TASKS : Int) := ⟨h0, h1⟩
  have hl := task_init_log cfg
  have hf := task_init_fields cfg
  by_cases hs : stk_size = 0
  · have e : __create_task cfg env s name func arg prio pid aff stk_size opt =
        Outcome.ret (TaskPtr.obj (TaskRef.heap a))
          (__create_task cfg env s name func arg prio pid aff stk_size opt).state := by
      simp only [__create_task, hrec, hs, ne_eq, not_true_eq_false, if_false, false_and,
        hp, and_self, if_true, Outcome.state]
    refine ⟨_, e, ?_⟩
    simp only [__create_task, hrec, hs, ne_eq, not_true_eq_false, if_false, false_and,
        hp, and_self, if_true, Outcome.state]
    refine ⟨?_, ?_, ?_, ?_, ?_, ?_, ?_, ?_, ?_, ?_⟩
    · simp [task_init_pid_map]
    · simp [task_init_os_task_table]
    · simp [task_init_os_task_nr]
    · simp [task_init_idle_task]
    · simp [(hf _ _ _ _ _ _ _ _ _ _).1]
    · simp [(hf _ _ _ _ _ _ _ _ _ _).2.1]
    · simp [(hf _ _ _ _ _ _ _ _ _ _).2.2.1]
    · simp [(hf _ _ _ _ _ _ _ _ _ _).2.2.2.1]
    · simp [(hf _ _ _ _ _ _ _ _ _ _).2.2.2.2]
    · simp only [call_log, hl, store_log, List.append_assoc]
      exact ⟨_, rfl, by simp, by simp⟩
  · have hc : ¬ (stk_size ≠ 0 ∧ env.get_free_pages = 0) := fun h => hstack h.2
    have e : __create_task cfg env s name func arg prio pid aff stk_size opt =
        Outcome.ret (TaskPtr.obj (TaskRef.heap a))
          (__create_task cfg env s name func arg prio pid aff stk_size opt).state := by
      simp only [__create_task, hrec, hs, ne_eq, not_false_eq_true, if_true, hc, if_false,
        hp, and_self, Outcome.state, hstack, true_and]
    refine ⟨_, e, ?_⟩
    simp only [__create_task, hrec, hs, ne_eq, not_false_eq_true, if_true, hc, if_false,
        hp, and_self, Outcome.state, hstack, true_and]
    refine ⟨?_, ?_, ?_, ?_, ?_, ?_, ?_, ?_, ?_, ?_⟩
    · simp [task_init_pid_map]
    · simp [task_init_os_task_table]
    · simp [task_init_os_task_nr]
    · simp [task_init_idle_task]
    · simp [(hf _ _ _ _ _ _ _ _ _ _).1]
    · simp [(hf _ _ _ _ _ _ _ _ _ _).2.1]
    · simp [(hf _ _ _ _ _ _ _ _ _ _).2.2.1]
    · simp [(hf _ _ _ _ _ _ _ _ _ _).2.2.2.1]
    · simp [(hf _ _ _ _ _ _ _ _ _ _).2.2.2.2]
    · simp only [call_log, hl, store_log, List.append_assoc]
      exact ⟨_, rfl, by simp, by simp⟩

/-! ## Task creation -/

/-- C6: when the task record or the stack cannot be allocated, `create_task`
releases the pid but does not return: it goes on to run the create hook on
the `NULL` task and stops at the read of `task->udata`. -/
theorem create_task_oom_no_return :
    (create_task sampleConfig recordOomEnv Kernel.boot [] 7 0 64 0 0).returned = none ∧
    (create_task sampleConfig recordOomEnv Kernel.boot [] 7 0 64 0 0).faulted =
      some (Fault.bad_task_ptr TaskPtr.null) ∧
    (create_task sampleConfig recordOomEnv Kernel.boot [] 7 0 64 0 0).state.log =
      [Call.pr_err, Call.do_hooks TaskPtr.null] ∧
    (create_task sampleConfig stackOomEnv Kernel.boot [] 7 0 64 0 0).returned = none ∧
    (create_task sampleConfig stackOomEnv Kernel.boot [] 7 0 64 0 0).faulted =
      some (Fault.bad_task_ptr TaskPtr.null) ∧
    (create_task sampleConfig stackOomEnv Kernel.boot [] 7 0 64 0 0).state.log =
      [Call.pr_err, Call.free (TaskRef.heap 4096), Call.do_hooks TaskPtr.null] := by
  refine ⟨?_, ?_, ?_, ?_, ?_, ?_⟩ <;> rfl

/-- C7: the affinity check of `create_task` turns the per-CPU sentinel
`PCPU_AFF_PERCPU` away with `-EINVAL`, in an unchanged state, although
`__create_task` would resolve it to the current CPU. -/
theorem create_task_rejects_PCPU_AFF_PERCPU (cfg : Config) (env : Env) (s : Kernel)
    (name : List Nat) (func arg prio opt : Nat)
    (hcpu : cfg.NR_CPUS ≤ cfg.PCPU_AFF_PERCPU)
    (hne : cfg.PCPU_AFF_PERCPU ≠ cfg.PCPU_AFF_NONE) :
    create_task cfg env s name func arg prio cfg.PCPU_AFF_PERCPU opt =
      Outcome.ret (-(cfg.EINVAL : Int)) s := by
  unfold create_task
  rw [if_pos ⟨hcpu, hne⟩]

/-- C7 in the sample configuration, where the sentinel is 65280. -/
theorem create_task_rejects_PCPU_AFF_PERCPU_witness :
    create_task sampleConfig sampleEnv Kernel.boot [] 7 0 64 65280 0 =
      Outcome.ret (-22) Kernel.boot :=
  create_task_rejects_PCPU_AFF_PERCPU sampleConfig sampleEnv Kernel.boot [] 7 0 64 0
    (by decide) (by decide)

/-- C9: for a free real-time priority and with both allocations succeeding,
`create_realtime_task` returns `prio`; afterwards slot `prio` of the table
holds the new task, whose `pid` and `prio` are `prio` and whose affinity is
0, and bit `prio` of `pid_map` is set; for flags without the VCPU bit,
`set_task_ready` was called on the task and `sched` was called exactly when
the scheduler is running. -/
theorem create_realtime_task_installs (cfg : Config) (env : Env) (s : Kernel)
    (name : List Nat) (func arg prio flags a : Nat)
    (hbits : 0 < cfg.BITS_PER_LONG)
    (hcfg : cfg.OS_LOWEST_PRIO < cfg.OS_NR_TASKS)
    (hidle : cfg.OS_LOWEST_PRIO < cfg.OS_PRIO_IDLE)
    (hcpus : 0 < cfg.NR_CPUS)
    (hsent : cfg.NR_CPUS ≤ cfg.PCPU_AFF_PERCPU)
    (hprio : prio ≤ cfg.OS_LOWEST_PRIO)
    (hfree : s.pid_map prio = false)
    (hrec : env.zalloc = some a)
    (hstack : env.get_free_pages ≠ 0) :
    ∃ s1,
      create_realtime_task cfg env s name func arg prio flags = Outcome.ret (prio : Int) s1 ∧
      s1.os_task_table prio = TaskPtr.obj (TaskRef.heap a) ∧
      (s1.mem (TaskRef.heap a)).pid = (prio : Int) ∧
      (s1.mem (TaskRef.heap a)).prio = prio ∧
      (s1.mem (TaskRef.heap a)).affinity = 0 ∧
      s1.pid_map prio = true ∧
      ∃ calls, s1.log = s.log ++ calls ∧
        (flags &&& cfg.TASK_FLAGS_VCPU = 0 →
          Call.set_task_ready (TaskRef.heap a) ∈ calls ∧
          (Call.sched ∈ calls ↔ env.os_is_running = true)) := by
  have hguard : ¬ (0 ≥ cfg.NR_CPUS ∧ 0 ≠ cfg.PCPU_AFF_NONE) := fun h => by omega
  have hlt : (prio : Int) < (cfg.OS_NR_TASKS : Int) := by omega
  have hnn : ¬ ((prio : Int) < 0) := by omega
  have hne : prio ≠ cfg.OS_PRIO_IDLE := by omega
  obtain ⟨s2, e2, m2, t2, _, _, fpid, fprio, faff, _, fflags, calls2, l2, nsched, nready⟩ :=
    __create_task_ok cfg env
      { s with pid_map := Function.update s.pid_map prio true
               os_task_table := Function.update s.os_task_table prio TaskPtr.reserved }
      name func arg prio (prio : Int) ((0 : Nat) : Int) cfg.TASK_STACK_SIZE flags a hrec hstack
      (by omega) hlt
  have faff0 : (s2.mem (TaskRef.heap a)).affinity = 0 := by
    rw [faff]
    have : ¬ (((0 : Nat) : Int) = (cfg.PCPU_AFF_PERCPU : Int)) := by omega
    simp only [this, if_false]
    split_ifs <;> rfl
  have fflags0 : (s2.mem (TaskRef.heap a)).flags = flags := by
    rw [fflags, if_neg hne]
  have e : create_realtime_task cfg env s name func arg prio flags =
      Outcome.ret (prio : Int)
        (activate_task cfg env
          (place_task cfg env
            ((s2.call (Call.do_hooks (TaskPtr.obj (TaskRef.heap a)))).call
              (Call.arch_init_task (TaskRef.heap a) func (s2.mem (TaskRef.heap a)).udata))
            (TaskRef.heap a) prio 0) (TaskRef.heap a) 0) := by
    simp only [create_realtime_task, create_task, hguard, if_false,
      alloc_pid_rt_free cfg s prio ((0 : Nat) : Int) hbits hcfg hprio hfree, hnn, e2,
      create_task_finish, call_mem, faff0]
    rfl
  refine ⟨_, e, ?_, ?_, ?_, ?_, ?_, ?_⟩
  · simp [activate_task_os_task_table, place_task_os_task_table, t2]
  · simp [activate_task_mem, place_task_mem, fpid]
  · simp [activate_task_mem, place_task_mem, fprio]
  · simp [activate_task_mem, place_task_mem, faff0]
  · simp [activate_task_pid_map, place_task_pid_map, m2]
  · by_cases hv : flags &&& cfg.TASK_FLAGS_VCPU = 0
    · rw [activate_task_log_realtime cfg env _ _ _
        (by simp [place_task_mem, fprio, hprio]) (by simp [place_task_mem, fflags0, hv])]
      simp only [place_task_log, call_log, l2, List.append_assoc]
      refine ⟨_, rfl, fun _ => ⟨by simp, ?_⟩⟩
      have h1 : Call.sched ∉ calls2 := nsched
      cases hr : env.os_is_running <;> simp [h1]
    · refine ⟨List.drop s.log.length
        (activate_task cfg env
          (place_task cfg env
            ((s2.call (Call.do_hooks (TaskPtr.obj (TaskRef.heap a)))).call
              (Call.arch_init_task (TaskRef.heap a) func (s2.mem (TaskRef.heap a)).udata))
            (TaskRef.heap a) prio 0) (TaskRef.heap a) 0).log, ?_, fun h => absurd h hv⟩
      have : (activate_task cfg env
          (place_task cfg env
            ((s2.call (Call.do_hooks (TaskPtr.obj (TaskRef.heap a)))).call
              (Call.arch_init_task (TaskRef.heap a) func (s2.mem (TaskRef.heap a)).udata))
            (TaskRef.heap a) prio 0) (TaskRef.heap a) 0).log =
          s.log ++ (calls2 ++ [Call.do_hooks (TaskPtr.obj (TaskRef.heap a)),
            Call.arch_init_task (TaskRef.heap a) func (s2.mem (TaskRef.heap a)).udata]) := by
        simp [activate_task, place_task_mem, place_task_log, fflags0, hv, l2]
      rw [this]
      simp

/-- C9 for `create_realtime_task("rt", f, NULL, 5, 0)` in the boot state of
the sample configuration. -/
theorem create_realtime_task_installs_witness :
    ∃ s1,
      create_realtime_task sampleConfig sampleEnv Kernel.boot [114, 116] 7 0 5 0 =
        Outcome.ret ((5 : Nat) : Int) s1 ∧
      s1.os_task_table 5 = TaskPtr.obj (TaskRef.heap 4096) ∧
      (s1.mem (TaskRef.heap 4096)).pid = ((5 : Nat) : Int) ∧
      (s1.mem (TaskRef.heap 4096)).prio = 5 ∧
      (s1.mem (TaskRef.heap 4096)).affinity = 0 ∧
      s1.pid_map 5 = true ∧
      ∃ calls, s1.log = Kernel.boot.log ++ calls ∧
        (0 &&& sampleConfig.TASK_FLAGS_VCPU = 0 →
          Call.set_task_ready (TaskRef.heap 4096) ∈ calls ∧
          (Call.sched ∈ calls ↔ sampleEnv.os_is_running = true)) :=
  create_realtime_task_installs sampleConfig sampleEnv Kernel.boot [114, 116] 7 0 5 0 4096
    (by decide) (by decide) (by decide) (by decide) (by decide) (by decide) rfl rfl
    (by decide)

/-! ## The task counter -/

theorem table_count_install (n : Nat) (table : Nat → TaskPtr) (p : Nat) (v : TaskPtr)
    (hp : p < n) (hold : (table p).is_task = false) (hv : v.is_task = true) :
    table_count n (Function.update table p v) = table_count n table + 1 := by
  unfold table_count
  have e : (Finset.range n).filter (fun i => (Function.update table p v i).is_task = true) =
      insert p ((Finset.range n).filter (fun i => (table i).is_task = true)) := by
    ext i
    by_cases hi : i = p
    · subst hi
      simp [hp, hv]
    · simp [Function.update_noteq hi, hi]
  rw [e, Finset.card_insert_of_not_mem]
  simp [hold]

theorem table_count_keep (n : Nat) (table : Nat → TaskPtr) (p : Nat) (v : TaskPtr)
    (hold : (table p).is_task = false) (hv : v.is_task = false) :
    table_count n (Function.update table p v) = table_count n table := by
  unfold table_count
  congr 1
  ext i
  by_cases hi : i = p
  · subst hi
    simp [hold, hv]
  · simp [Function.update_noteq hi]

theorem table_count_lt (n : Nat) (table : Nat → TaskPtr) (p : Nat)
    (hp : p < n) (hold : (table p).is_task = false) : table_count n table < n := by
  unfold table_count
  have hss : (Finset.range n).filter (fun i => (table i).is_task = true) ⊂ Finset.range n := by
    rw [Finset.ssubset_iff_of_subset (Finset.filter_subset _ _)]
    exact ⟨p, Finset.mem_range.mpr hp, by simp [hold]⟩
  simpa using Finset.card_lt_card hss

theorem table_count_null (n : Nat) (table : Nat → TaskPtr)
    (h : ∀ i, i < n → (table i).is_task = false) : table_count n table = 0 := by
  unfold table_count
  rw [Finset.card_eq_zero, Finset.filter_eq_empty_iff]
  intro i hi
  simp [h i (Finset.mem_range.mp hi)]

theorem atomic_inc_small (v : Int) (h0 : 0 ≤ v) (h1 : v + 1 < 2147483648) :
    atomic_inc v = v + 1 := by
  unfold atomic_inc
  omega

/-! ## What a returning call does to the identity state -/

theorem alloc_pid_scan_cases (cfg : Config) (s s1 : Kernel) (pid : Int)
    (h : alloc_pid_scan cfg s = Outcome.ret pid s1) :
    (pid = -1 ∧ s1 = s) ∨
    (∃ p : Nat, pid = (p : Int) ∧ p < cfg.OS_NR_TASKS ∧ s.pid_map p = false ∧
      s1 = { s with pid_map := Function.update s.pid_map p true }) := by
  unfold alloc_pid_scan at h
  simp only at h
  by_cases hge : find_next_zero_bit s.pid_map cfg.OS_NR_TASKS cfg.OS_REALTIME_TASK
      ≥ cfg.OS_NR_TASKS
  · rw [if_pos hge] at h
    injection h with hv hs
    exact Or.inl ⟨hv.symm, hs.symm⟩
  · rw [if_neg hge] at h
    unfold set_bit at h
    by_cases hb : bit_in_bounds cfg cfg.OS_NR_TASKS
        ((find_next_zero_bit s.pid_map cfg.OS_NR_TASKS cfg.OS_REALTIME_TASK : Nat) : Int)
        = true
    · rw [if_pos hb] at h
      simp only [Int.toNat_ofNat] at h
      injection h with hv hs
      exact Or.inr ⟨_, hv.symm, by omega, find_next_zero_bit_clear _ _ _ (by omega), hs.symm⟩
    · rw [if_neg hb] at h
      cases h

theorem alloc_pid_cases (cfg : Config) (s s1 : Kernel) (prio : Nat) (cpuid pid : Int)
    (h : alloc_pid cfg s prio cpuid = Outcome.ret pid s1) :
    (pid = -1 ∧ s1 = s) ∨
    (∃ p : Nat, pid = (p : Int) ∧ p < cfg.OS_NR_TASKS ∧ s.pid_map p = false ∧
      (s1 = { s with pid_map := Function.update s.pid_map p true } ∨
       s1 = { s with pid_map := Function.update s.pid_map p true
                     os_task_table :=
                       Function.update s.os_task_table p TaskPtr.reserved })) := by
  have scan : ∀ {t : Kernel}, alloc_pid_scan cfg s = Outcome.ret pid t → t = s1 →
      (pid = -1 ∧ s1 = s) ∨
      (∃ p : Nat, pid = (p : Int) ∧ p < cfg.OS_NR_TASKS ∧ s.pid_map p = false ∧
        (s1 = { s with pid_map := Function.update s.pid_map p true } ∨
         s1 = { s with pid_map := Function.update s.pid_map p true
                       os_task_table :=
                         Function.update s.os_task_table p TaskPtr.reserved })) := by
    intro t ht hts
    subst hts
    rcases alloc_pid_scan_cases cfg s t pid ht with h1 | ⟨p, a, b, c, d⟩
    · exact Or.inl h1
    · exact Or.inr ⟨p, a, b, c, Or.inl d⟩
  unfold alloc_pid at h
  by_cases hprio : prio > cfg.OS_LOWEST_PRIO
  · rw [if_pos hprio] at h
    by_cases hi : prio = cfg.OS_PRIO_IDLE
    · rw [if_pos hi] at h
      cases hp : pcpu_of cfg s cpuid with
      | none => rw [hp] at h; cases h
      | some pc =>
        rw [hp] at h
        simp only at h
        by_cases hidle : pc.idle_task ≠ TaskPtr.null
        · rw [if_pos hidle] at h
          injection h with hv hs
          exact Or.inl ⟨hv.symm, hs.symm⟩
        · rw [if_neg hidle] at h
          exact scan h rfl
    · rw [if_neg hi] at h
      exact scan h rfl
  · rw [if_neg hprio] at h
    unfold test_and_set_bit at h
    by_cases hb : bit_in_bounds cfg cfg.OS_NR_TASKS (prio : Int) = true
    · rw [if_pos hb] at h
      simp only [Int.toNat_ofNat] at h
      cases hold : s.pid_map prio with
      | true =>
        rw [hold] at h
        simp only [Bool.true_eq_false, if_false] at h
        injection h with hv hs
        refine Or.inl ⟨hv.symm, ?_⟩
        rw [← hs]
        have e : Function.update s.pid_map prio true = s.pid_map := by
          rw [← hold]; exact Function.update_eq_self prio s.pid_map
        rw [e]
      | false =>
        rw [hold] at h
        simp only [if_true] at h
        by_cases hlt : prio < cfg.OS_NR_TASKS
        · rw [if_pos hlt] at h
          injection h with hv hs
          exact Or.inr ⟨prio, hv.symm, hlt, hold, Or.inr hs.symm⟩
        · rw [if_neg hlt] at h
          cases h
    · rw [if_neg hb] at h
      cases h

theorem release_pid_cases (cfg : Config) (s s1 : Kernel) (pid : Int)
    (h : release_pid cfg s pid = Outcome.ret () s1) :
    s1 = s ∨
    (0 ≤ pid ∧ pid < (cfg.OS_NR_TASKS : Int) ∧
      s1 = { s with pid_map := Function.update s.pid_map pid.toNat false
                    os_task_table :=
                      Function.update s.os_task_table pid.toNat TaskPtr.null }) := by
  unfold release_pid at h
  by_cases hgt : pid > (cfg.OS_NR_TASKS : Int)
  · rw [if_pos hgt] at h
    injection h with _ hs
    exact Or.inl hs.symm
  · rw [if_neg hgt] at h
    unfold clear_bit at h
    by_cases hb : bit_in_bounds cfg cfg.OS_NR_TASKS pid = true
    · rw [if_pos hb] at h
      simp only at h
      by_cases hr : 0 ≤ pid ∧ pid < (cfg.OS_NR_TASKS : Int)
      · rw [if_pos hr] at h
        injection h with _ hs
        exact Or.inr ⟨hr.1, hr.2, hs.symm⟩
      · rw [if_neg hr] at h
        cases h
    · rw [if_neg hb] at h
      cases h

theorem __create_task_cases (cfg : Config) (env : Env) (s s1 : Kernel)
    (name : List Nat) (func arg prio : Nat) (pid aff : Int) (stk_size opt : Nat) (task : TaskPtr)
    (h : __create_task cfg env s name func arg prio pid aff stk_size opt =
      Outcome.ret task s1) :
    (task = TaskPtr.null ∧ SameIds s s1) ∨
    (∃ a, task = TaskPtr.obj (TaskRef.heap a) ∧ 0 ≤ pid ∧ pid < (cfg.OS_NR_TASKS : Int) ∧
      s1.pid_map = s.pid_map ∧
      s1.os_task_table =
        Function.update s.os_task_table pid.toNat (TaskPtr.obj (TaskRef.heap a)) ∧
      s1.os_task_nr = atomic_inc s.os_task_nr) := by
  unfold __create_task at h
  cases hz : env.zalloc with
  | none =>
    rw [hz] at h
    injection h with hv hs
    subst hs
    exact Or.inl ⟨hv.symm, rfl, rfl, rfl⟩
  | some a =>
    rw [hz] at h
    simp only at h
    by_cases c1 : stk_size ≠ 0 ∧ (if stk_size ≠ 0 then env.get_free_pages else 0) = 0
    · rw [if_pos c1] at h
      injection h with hv hs
      subst hs
      exact Or.inl ⟨hv.symm, rfl, rfl, rfl⟩
    · rw [if_neg c1] at h
      by_cases c2 : 0 ≤ pid ∧ pid < (cfg.OS_NR_TASKS : Int)
      · rw [if_pos c2] at h
        injection h with hv hs
        subst hs
        refine Or.inr ⟨a, hv.symm, c2.1, c2.2, ?_, ?_, ?_⟩
        · simp only [call_pid_map, task_init_pid_map]
          split_ifs <;> rfl
        · simp only [call_os_task_table, task_init_os_task_table]
          split_ifs <;> rfl
        · simp only [call_os_task_nr, task_init_os_task_nr]
          split_ifs <;> rfl
      · rw [if_neg c2] at h
        cases h

theorem create_task_finish_cases (cfg : Config) (env : Env) (s s1 : Kernel) (task : TaskPtr)
    (pid r : Int) (func prio : Nat)
    (h : create_task_finish cfg env s task pid func prio = Outcome.ret r s1) :
    (∃ t, task = TaskPtr.obj t) ∧ r = pid ∧ SameIds s s1 := by
  cases task with
  | null => simp only [create_task_finish] at h; cases h
  | reserved => simp only [create_task_finish] at h; cases h
  | obj t =>
    simp only [create_task_finish] at h
    injection h with hv hs
    subst hs
    refine ⟨⟨t, rfl⟩, hv.symm, ?_, ?_, ?_⟩
    · simp [activate_task_pid_map, place_task_pid_map]
    · simp [activate_task_os_task_table, place_task_os_task_table]
    · simp [activate_task_os_task_nr, place_task_os_task_nr]

theorem create_task_cases (cfg : Config) (env : Env) (s s1 : Kernel) (name : List Nat)
    (func arg prio aff opt : Nat) (r : Int)
    (h : create_task cfg env s name func arg prio aff opt = Outcome.ret r s1) :
    SameIds s s1 ∨ Installs cfg s s1 := by
  unfold create_task at h
  by_cases hg : aff ≥ cfg.NR_CPUS ∧ aff ≠ cfg.PCPU_AFF_NONE
  · rw [if_pos hg] at h
    injection h with _ hs
    subst hs
    exact Or.inl ⟨rfl, rfl, rfl⟩
  · rw [if_neg hg] at h
    cases ha : alloc_pid cfg s prio (aff : Int) with
    | fault f sA => rw [ha] at h; cases h
    | ret pid sA =>
      rw [ha] at h
      simp only at h
      rcases alloc_pid_cases cfg s sA prio (aff : Int) pid ha with
        ⟨hp, hsA⟩ | ⟨p, hp, hlt, hclr, hsA⟩
      · have hneg : pid < 0 := by omega
        rw [if_pos hneg] at h
        injection h with _ hs
        subst hs
        rw [hsA]
        exact Or.inl ⟨rfl, rfl, rfl⟩
      · have hnn : ¬ pid < 0 := by omega
        rw [if_neg hnn] at h
        cases hr : __create_task cfg env sA name func arg prio pid (aff : Int)
            cfg.TASK_STACK_SIZE opt with
        | fault f sB => rw [hr] at h; cases h
        | ret task sB =>
          rw [hr] at h
          simp only at h
          by_cases hnull : task = TaskPtr.null
          · rw [if_pos hnull] at h
            cases hrel : release_pid cfg sB pid with
            | fault f sC => rw [hrel] at h; cases h
            | ret u sC =>
              rw [hrel] at h
              simp only at h
              obtain ⟨⟨t, ht⟩, _, _⟩ :=
                create_task_finish_cases cfg env sC s1 task _ r func prio h
              rw [hnull] at ht
              cases ht
          · rw [if_neg hnull] at h
            obtain ⟨_, _, f1, f2, f3⟩ :=
              create_task_finish_cases cfg env sB s1 task pid r func prio h
            rcases __create_task_cases cfg env sA sB name func arg prio pid (aff : Int)
                cfg.TASK_STACK_SIZE opt task hr with ⟨hn, _⟩ | ⟨a, _, _, _, g1, g2, g3⟩
            · exact absurd hn hnull
            · right
              refine ⟨p, TaskRef.heap a, hlt, hclr, ?_, ?_, ?_⟩
              · rw [f1, g1]
                rcases hsA with e | e <;> rw [e]
              · rw [f2, g2, hp, Int.toNat_ofNat]
                rcases hsA with e | e <;> rw [e]
                simp only [Function.update_idem]
              · rw [f3, g3]
                rcases hsA with e | e <;> rw [e]

theorem create_idle_task_cases (cfg : Config) (env : Env) (s s1 : Kernel) (r : Int)
    (h : create_idle_task cfg env s = Outcome.ret r s1) : Installs cfg s s1 := by
  unfold create_idle_task at h
  simp only at h
  cases ha : alloc_pid cfg s cfg.OS_PRIO_IDLE (env.smp_processor_id : Int) with
  | fault f sA => rw [ha] at h; cases h
  | ret pid sA =>
    rw [ha] at h
    simp only at h
    by_cases c1 : pid < -1
    · rw [if_pos c1] at h; cases h
    · rw [if_neg c1] at h
      by_cases c2 : ¬ env.smp_processor_id < cfg.NR_CPUS
      · rw [if_pos c2] at h; cases h
      · rw [if_neg c2] at h
        by_cases c3 : sA.idle_task env.smp_processor_id = TaskPtr.null
        · rw [if_pos c3] at h; cases h
        · rw [if_neg c3] at h
          by_cases c4 : ¬ (0 ≤ pid ∧ pid < (cfg.OS_NR_TASKS : Int))
          · rw [if_pos c4] at h; cases h
          · rw [if_neg c4] at h
            rcases alloc_pid_cases cfg s sA cfg.OS_PRIO_IDLE _ pid ha with
              ⟨hp, _⟩ | ⟨p, hp, hlt, hclr, hsA⟩
            · omega
            · cases ht : sA.idle_task env.smp_processor_id with
              | null => exact absurd ht c3
              | reserved => rw [ht] at h; cases h
              | obj t =>
                rw [ht] at h
                simp only at h
                injection h with _ hs
                subst hs
                refine ⟨p, t, hlt, hclr, ?_, ?_, ?_⟩
                · simp only [call_pid_map, store_pid_map, task_init_pid_map]
                  rcases hsA with e | e <;> rw [e]
                · simp only [call_os_task_table, store_os_task_table,
                    task_init_os_task_table, hp, Int.toNat_ofNat]
                  rcases hsA with e | e <;> rw [e]
                  simp only [Function.update_idem]
                · simp only [call_os_task_nr, store_os_task_nr, task_init_os_task_nr]
                  rcases hsA with e | e <;> rw [e]

theorem counterInv_of_sameIds (cfg : Config) (s s1 : Kernel) (h : SameIds s s1)
    (hi : CounterInv cfg s) : CounterInv cfg s1 := by
  obtain ⟨a, b, c⟩ := h
  obtain ⟨i1, i2⟩ := hi
  refine ⟨?_, ?_⟩
  · intro i hlt hb
    rw [a] at hb; rw [b]; exact i1 i hlt hb
  · rw [c, i2]; simp only [task_count, b]

theorem counterInv_of_installs (cfg : Config) (hN : cfg.OS_NR_TASKS < 2147483648)
    (s s1 : Kernel) (h : Installs cfg s s1) (hi : CounterInv cfg s) : CounterInv cfg s1 := by
  obtain ⟨p, t, hlt, hclr, a, b, c⟩ := h
  obtain ⟨i1, i2⟩ := hi
  have hnull : s.os_task_table p = TaskPtr.null := i1 p hlt hclr
  have hold : (s.os_task_table p).is_task = false := by rw [hnull]; rfl
  have hcount := table_count_lt cfg.OS_NR_TASKS s.os_task_table p hlt hold
  refine ⟨?_, ?_⟩
  · intro i hi hb
    rw [a] at hb; rw [b]
    by_cases hip : i = p
    · subst hip; simp at hb
    · rw [Function.update_noteq hip] at hb ⊢
      exact i1 i hi hb
  · rw [c, i2]
    simp only [task_count, b]
    rw [table_count_install cfg.OS_NR_TASKS s.os_task_table p (TaskPtr.obj t) hlt hold rfl]
    simp only [task_count] at i2
    rw [atomic_inc_small _ (by omega) (by omega)]
    push_cast
    rfl

theorem counterInv_step (cfg : Config) (hN : cfg.OS_NR_TASKS < 2147483648) (s s1 : Kernel)
    (h : Step cfg release_of_free_slot s s1) (hi : CounterInv cfg s) : CounterInv cfg s1 := by
  cases h with
  | alloc prio cpuid pid h =>
    rcases alloc_pid_cases cfg s s1 prio cpuid pid h with ⟨_, e⟩ | ⟨p, _, hlt, hclr, e⟩
    · rw [e]; exact hi
    · obtain ⟨i1, i2⟩ := hi
      have hnull : s.os_task_table p = TaskPtr.null := i1 p hlt hclr
      have hold : (s.os_task_table p).is_task = false := by rw [hnull]; rfl
      rcases e with e | e
      · subst e
        refine ⟨?_, i2⟩
        intro i hi hb
        by_cases hip : i = p
        · subst hip; simp at hb
        · simp only [Function.update_noteq hip] at hb
          exact i1 i hi hb
      · subst e
        refine ⟨?_, ?_⟩
        · intro i hi hb
          by_cases hip : i = p
          · subst hip; simp at hb
          · simp only [Function.update_noteq hip] at hb ⊢
            exact i1 i hi hb
        · simp only [task_count] at i2 ⊢
          rw [table_count_keep cfg.OS_NR_TASKS s.os_task_table p TaskPtr.reserved hold rfl]
          exact i2
  | release pid ha h =>
    rcases release_pid_cases cfg s s1 pid h with e | ⟨h0, h1, e⟩
    · rw [e]; exact hi
    · obtain ⟨i1, i2⟩ := hi
      subst e
      refine ⟨?_, ?_⟩
      · intro i hi hb
        by_cases hip : i = pid.toNat
        · subst hip; simp
        · simp only [Function.update_noteq hip] at hb ⊢
          exact i1 i hi hb
      · simp only [task_count] at i2 ⊢
        rw [table_count_keep cfg.OS_NR_TASKS s.os_task_table pid.toNat TaskPtr.null ha rfl]
        exact i2
  | create env name func arg prio aff opt r h =>
    rcases create_task_cases cfg env s s1 name func arg prio aff opt r h with e | e
    · exact counterInv_of_sameIds cfg s s1 e hi
    · exact counterInv_of_installs cfg hN s s1 e hi
  | idle env r h =>
    exact counterInv_of_installs cfg hN s s1 (create_idle_task_cases cfg env s s1 r h) hi

theorem counterInv_initial (cfg : Config) (s : Kernel) (h : Initial s) : CounterInv cfg s := by
  obtain ⟨_, b, c⟩ := h
  refine ⟨fun i _ _ => b i, ?_⟩
  rw [c]
  simp only [task_count]
  rw [table_count_null cfg.OS_NR_TASKS s.os_task_table (fun i _ => by rw [b i]; rfl)]
  rfl

theorem boot_initial : Initial Kernel.boot := ⟨fun _ => rfl, fun _ => rfl, rfl⟩

theorem oneTaskState_step (allowed : Kernel → Int → Prop) :
    Step sampleConfig allowed Kernel.boot oneTaskState :=
  Step.create Kernel.boot oneTaskState sampleEnv [119] 7 0 64 0 0 64 rfl

/-! ## The counter and the table -/

/-- C8 as stated fails: create one task in the boot state, then call
`release_pid` on its pid.  The slot is `NULL` again, no slot holds a task,
and `os_task_nr` is still 1. -/
theorem os_task_nr_after_release_pid :
    Reachable sampleConfig any_release releasedState ∧
    releasedState.os_task_nr = 1 ∧ task_count sampleConfig releasedState = 0 := by
  refine ⟨?_, rfl, ?_⟩
  · exact Reachable.step oneTaskState releasedState
      (Reachable.step Kernel.boot oneTaskState (Reachable.init Kernel.boot boot_initial)
        (oneTaskState_step any_release))
      (Step.release oneTaskState releasedState 64 trivial rfl)
  · apply table_count_null
    intro i _
    have e : releasedState.os_task_table =
        Function.update (Function.update (fun _ => TaskPtr.null) 64
          (TaskPtr.obj (TaskRef.heap 4096))) 64 TaskPtr.null := rfl
    rw [e, Function.update_idem]
    by_cases hi : i = 64
    · subst hi; rfl
    · rw [Function.update_noteq hi]; rfl

/-- C8, amended: in every state reached from an initial state by calls of
`alloc_pid`, `release_pid`, `create_task` and `create_idle_task` in which
`release_pid` is never called on the pid of an installed task, `os_task_nr`
equals the number of slots of `os_task_table` that are neither `NULL` nor
`OS_TASK_RESERVED`. -/
theorem os_task_nr_counts_tasks (cfg : Config) (hN : cfg.OS_NR_TASKS < 2147483648)
    (s : Kernel) (h : Reachable cfg release_of_free_slot s) :
    s.os_task_nr = (task_count cfg s : Int) := by
  have inv : CounterInv cfg s := by
    induction h with
    | init s h => exact counterInv_initial cfg s h
    | step s s1 _ hstep ih => exact counterInv_step cfg hN s s1 hstep ih
  exact inv.2

/-- C8, amended, in the state after one `create_task` from the boot state. -/
theorem os_task_nr_counts_tasks_witness :
    oneTaskState.os_task_nr = (task_count sampleConfig oneTaskState : Int) :=
  os_task_nr_counts_tasks sampleConfig (by decide) oneTaskState
    (Reachable.step Kernel.boot oneTaskState (Reachable.init Kernel.boot boot_initial)
      (oneTaskState_step release_of_free_slot))

/-! ## Exhausting and refilling the event pool -/

theorem alloc_task_event_some (cfg : Config) (s : Kernel) (b : Nat)
    (hbits : 0 < cfg.BITS_PER_LONG) (hb : b < NR_TASK_EVENT)
    (hclear : s.task_event_map b = false)
    (hleast : ∀ j, j < b → s.task_event_map j = true) :
    alloc_task_event cfg s =
      Outcome.ret (some b)
        { s with task_event_map := Function.update s.task_event_map b true } := by
  have hf := find_next_zero_bit_least s.task_event_map NR_TASK_EVENT 0 b (Nat.zero_le _) hb
    hclear (fun q _ h => hleast q h)
  have hbb := bit_in_bounds_of_lt cfg hbits NR_TASK_EVENT b hb
  simp only [alloc_task_event, hf, hb, if_true, set_bit, hbb, Int.toNat_ofNat]

theorem alloc_task_event_none (cfg : Config) (s : Kernel)
    (hfull : ∀ j, j < NR_TASK_EVENT → s.task_event_map j = true) :
    alloc_task_event cfg s = Outcome.ret none s := by
  have hf := find_next_zero_bit_full s.task_event_map NR_TASK_EVENT 0 (fun p _ h => hfull p h)
  simp only [alloc_task_event, hf, lt_self_iff_false, if_false]

theorem alloc_task_event_cases (cfg : Config) (s s1 : Kernel) (r : Option Nat)
    (h : alloc_task_event cfg s = Outcome.ret r s1) :
    (r = none ∧ s1 = s) ∨
    (∃ e, r = some e ∧ e < NR_TASK_EVENT ∧ s.task_event_map e = false ∧
      bit_in_bounds cfg NR_TASK_EVENT (e : Int) = true ∧
      s1 = { s with task_event_map := Function.update s.task_event_map e true }) := by
  unfold alloc_task_event at h
  simp only at h
  by_cases hlt : find_next_zero_bit s.task_event_map NR_TASK_EVENT 0 < NR_TASK_EVENT
  · rw [if_pos hlt] at h
    unfold set_bit at h
    by_cases hb : bit_in_bounds cfg NR_TASK_EVENT
        ((find_next_zero_bit s.task_event_map NR_TASK_EVENT 0 : Nat) : Int) = true
    · rw [if_pos hb] at h
      simp only [Int.toNat_ofNat] at h
      injection h with hv hs
      exact Or.inr ⟨_, hv.symm, hlt, find_next_zero_bit_clear _ _ _ hlt, hb, hs.symm⟩
    · rw [if_neg hb] at h
      cases h
  · rw [if_neg hlt] at h
    injection h with hv hs
    exact Or.inl ⟨hv.symm, hs.symm⟩

theorem alloc_task_event_times_fill (cfg : Config) (hbits : 0 < cfg.BITS_PER_LONG) :
    ∀ (n k : Nat) (s : Kernel), k + n ≤ NR_TASK_EVENT →
      (∀ j, j < k → s.task_event_map j = true) →
      (∀ j, k ≤ j → j < NR_TASK_EVENT → s.task_event_map j = false) →
      ∃ s1, alloc_task_event_times cfg n s = Outcome.ret ((List.range' k n).map some) s1 ∧
        s1.task_events = s.task_events ∧
        (∀ j, j < k + n → s1.task_event_map j = true) ∧
        (∀ j, k + n ≤ j → j < NR_TASK_EVENT → s1.task_event_map j = false) := by
  intro n
  induction n with
  | zero =>
    intro k s _ hset hclr
    exact ⟨s, rfl, rfl, fun j hj => hset j (by omega), fun j h1 h2 => hclr j (by omega) h2⟩
  | succ n ih =>
    intro k s hk hset hclr
    have e1 := alloc_task_event_some cfg s k hbits (by omega) (hclr k (le_refl _) (by omega))
      hset
    obtain ⟨s1, r1, t1, a1, b1⟩ := ih (k + 1)
      { s with task_event_map := Function.update s.task_event_map k true } (by omega)
      (fun j hj => by
        by_cases hjk : j = k
        · subst hjk; simp
        · simp only [Function.update_noteq hjk]; exact hset j (by omega))
      (fun j h1 h2 => by
        have hjk : j ≠ k := by omega
        simp only [Function.update_noteq hjk]; exact hclr j (by omega) h2)
    refine ⟨s1, ?_, t1, fun j hj => a1 j (by omega), fun j h1 h2 => b1 j (by omega) h2⟩
    simp only [alloc_task_event_times, e1, r1, List.range'_succ, List.map_cons]

/-- C11: from an empty pool, 32 successive `alloc_task_event` calls return the
descriptors of slots 0 to 31, whose ids are pairwise distinct and lie in
`[0, 32)`; the call after them returns `NULL` and leaves the state, and so
`task_event_map`, as it is. -/
theorem alloc_task_event_exhaustion (cfg : Config) (s : Kernel)
    (hbits : 0 < cfg.BITS_PER_LONG)
    (hid : ∀ i, i < NR_TASK_EVENT → (s.task_events i).id = (i : Int))
    (hempty : ∀ i, i < NR_TASK_EVENT → s.task_event_map i = false) :
    ∃ rs s32,
      alloc_task_event_times cfg 32 s = Outcome.ret rs s32 ∧
      rs.length = 32 ∧
      (∀ r, r ∈ rs → ∃ e, r = some e ∧
        0 ≤ (s32.task_events e).id ∧ (s32.task_events e).id < 32) ∧
      (rs.map (fun r => r.map (fun e => (s32.task_events e).id))).Nodup ∧
      alloc_task_event cfg s32 = Outcome.ret none s32 := by
  obtain ⟨s32, r, t, a, _⟩ := alloc_task_event_times_fill cfg hbits 32 0 s (by decide)
    (fun j hj => absurd hj (Nat.not_lt_zero j)) (fun j _ h => hempty j h)
  refine ⟨_, s32, r, by simp, ?_, ?_, ?_⟩
  · intro x hx
    simp only [List.mem_map, List.mem_range'_1] at hx
    obtain ⟨e, ⟨_, he⟩, hxe⟩ := hx
    have he32 : e < NR_TASK_EVENT := by simpa [NR_TASK_EVENT] using he
    refine ⟨e, hxe.symm, ?_, ?_⟩
    · rw [t, hid e he32]; omega
    · rw [t, hid e he32]; omega
  · rw [List.map_map]
    apply List.Nodup.map_on _ (List.nodup_range' 0 32)
    intro x hx y hy hxy
    simp only [List.mem_range'_1] at hx hy
    have hx32 : x < NR_TASK_EVENT := by simpa [NR_TASK_EVENT] using hx.2
    have hy32 : y < NR_TASK_EVENT := by simpa [NR_TASK_EVENT] using hy.2
    simp only [Function.comp, Option.map_some', t, hid x hx32, hid y hy32, Option.some.injEq]
      at hxy
    omega
  · exact alloc_task_event_none cfg s32 (fun j hj => a j (by simpa [NR_TASK_EVENT] using hj))

/-- C11 on the pool right after `task_events_init` in the boot state. -/
theorem alloc_task_event_exhaustion_witness :
    ∃ rs s32,
      alloc_task_event_times sampleConfig 32 (task_events_init Kernel.boot).state =
        Outcome.ret rs s32 ∧
      rs.length = 32 ∧
      (∀ r, r ∈ rs → ∃ e, r = some e ∧
        0 ≤ (s32.task_events e).id ∧ (s32.task_events e).id < 32) ∧
      (rs.map (fun r => r.map (fun e => (s32.task_events e).id))).Nodup ∧
      alloc_task_event sampleConfig s32 = Outcome.ret none s32 :=
  alloc_task_event_exhaustion sampleConfig (task_events_init Kernel.boot).state (by decide)
    (fun i h => task_events_init_ids Kernel.boot i h) (fun _ _ => rfl)

/-- C12: in a pool whose descriptors carry their own index as `id`, when
`alloc_task_event` returns an event, an immediate `release_task_event` on it
returns and brings `task_event_map` back to what it was before. -/
theorem alloc_release_task_event_roundtrip (cfg : Config) (s s1 : Kernel) (e : Nat)
    (hid : ∀ i, i < NR_TASK_EVENT → (s.task_events i).id = (i : Int))
    (h : alloc_task_event cfg s = Outcome.ret (some e) s1) :
    ∃ s2, release_task_event cfg s1 e = Outcome.ret () s2 ∧
      s2.task_event_map = s.task_event_map := by
  rcases alloc_task_event_cases cfg s s1 (some e) h with ⟨hn, _⟩ | ⟨e1, he, hlt, hclr, hb, hs⟩
  · cases hn
  · injection he with he
    subst he
    subst hs
    refine ⟨{ s with task_event_map := s.task_event_map }, ?_, rfl⟩
    have hide : (s.task_events e).id = (e : Int) := hid e hlt
    simp only [release_task_event, hide, clear_bit, hb, if_true, Int.toNat_ofNat,
      Function.update_idem]
    have e2 : Function.update s.task_event_map e false = s.task_event_map := by
      rw [← hclr]; exact Function.update_eq_self e s.task_event_map
    rw [e2]

/-- C12 on the pool right after `task_events_init` in the boot state. -/
theorem alloc_release_task_event_roundtrip_witness :
    ∃ s2, release_task_event sampleConfig
        { (task_events_init Kernel.boot).state with
            task_event_map :=
              Function.update (task_events_init Kernel.boot).state.task_event_map 0 true } 0
          = Outcome.ret () s2 ∧
      s2.task_event_map = (task_events_init Kernel.boot).state.task_event_map :=
  alloc_release_task_event_roundtrip sampleConfig (task_events_init Kernel.boot).state _ 0
    (fun i h => task_events_init_ids Kernel.boot i h) rfl

/-! ## Facts about clearing bits -/

theorem testBit_and_not (x m k : Nat) :
    (and_not x m).testBit k = (x.testBit k && !m.testBit k) := by
  unfold and_not
  rw [Nat.testBit_xor, Nat.testBit_and]
  cases x.testBit k <;> cases m.testBit k <;> rfl

theorem and_not_land_self (x m : Nat) : and_not x m &&& m = 0 := by
  apply Nat.eq_of_testBit_eq
  intro k
  rw [Nat.testBit_and, testBit_and_not, Nat.zero_testBit]
  cases x.testBit k <;> cases m.testBit k <;> rfl

theorem and_not_keeps_clear (x m a : Nat) (h : x &&& a = 0) : and_not x m &&& a = 0 := by
  apply Nat.eq_of_testBit_eq
  intro k
  have hk : (x &&& a).testBit k = false := by rw [h, Nat.zero_testBit]
  rw [Nat.testBit_and] at hk
  rw [Nat.testBit_and, testBit_and_not, Nat.zero_testBit]
  cases hx : x.testBit k <;> cases ha : a.testBit k <;> cases m.testBit k <;>
    simp_all

/-! ## The timeout wake path -/

/-- C13: when `task_timeout_handler` runs on a pending task, it returns with
`pend_stat == TASK_STAT_PEND_TO`, `delay == 0` and a `stat` without the
`TASK_STAT_SUSPEND` bit and without any `TASK_STAT_PEND_ANY` bit, so the task
is no longer pending; `set_task_ready` and `set_need_resched` were each called
once. -/
theorem task_timeout_handler_pending (cfg : Config) (s : Kernel) (task : TaskRef)
    (hp : is_task_pending cfg (s.mem task) = true) :
    ∃ s1, task_timeout_handler cfg s task = Outcome.ret () s1 ∧
      (s1.mem task).pend_stat = cfg.TASK_STAT_PEND_TO ∧
      (s1.mem task).delay = 0 ∧
      (s1.mem task).stat =
        and_not (and_not (s.mem task).stat cfg.TASK_STAT_SUSPEND) cfg.TASK_STAT_PEND_ANY ∧
      (s1.mem task).stat &&& cfg.TASK_STAT_SUSPEND = 0 ∧
      (s1.mem task).stat &&& cfg.TASK_STAT_PEND_ANY = 0 ∧
      is_task_pending cfg (s1.mem task) = false ∧
      s1.log = s.log ++ [Call.set_task_ready task, Call.set_need_resched] := by
  have hst : ((task_timeout_handler cfg s task).state.mem task).stat =
      and_not (and_not (s.mem task).stat cfg.TASK_STAT_SUSPEND) cfg.TASK_STAT_PEND_ANY := by
    simp [task_timeout_handler, hp, Outcome.state]
  refine ⟨(task_timeout_handler cfg s task).state, ?_, ?_, ?_, hst, ?_, ?_, ?_, ?_⟩
  · simp [task_timeout_handler, hp, Outcome.state]
  · simp [task_timeout_handler, hp, Outcome.state]
  · simp [task_timeout_handler, hp, Outcome.state]
  · rw [hst]
    exact and_not_keeps_clear _ _ _ (and_not_land_self _ _)
  · rw [hst]
    exact and_not_land_self _ _
  · simp only [is_task_pending, hst, and_not_land_self, ne_eq, not_true_eq_false,
      decide_False]
  · simp [task_timeout_handler, hp, Outcome.state]

/-- C13 for the task of `pendingState`, blocked with 10 ticks to go. -/
theorem task_timeout_handler_pending_witness :
    ∃ s1, task_timeout_handler sampleConfig pendingState (TaskRef.heap 4096) =
        Outcome.ret () s1 ∧
      (s1.mem (TaskRef.heap 4096)).pend_stat = sampleConfig.TASK_STAT_PEND_TO ∧
      (s1.mem (TaskRef.heap 4096)).delay = 0 ∧
      (s1.mem (TaskRef.heap 4096)).stat =
        and_not (and_not (pendingState.mem (TaskRef.heap 4096)).stat
          sampleConfig.TASK_STAT_SUSPEND) sampleConfig.TASK_STAT_PEND_ANY ∧
      (s1.mem (TaskRef.heap 4096)).stat &&& sampleConfig.TASK_STAT_SUSPEND = 0 ∧
      (s1.mem (TaskRef.heap 4096)).stat &&& sampleConfig.TASK_STAT_PEND_ANY = 0 ∧
      is_task_pending sampleConfig (s1.mem (TaskRef.heap 4096)) = false ∧
      s1.log = pendingState.log ++
        [Call.set_task_ready (TaskRef.heap 4096), Call.set_need_resched] :=
  task_timeout_handler_pending sampleConfig pendingState (TaskRef.heap 4096) (by decide)

/-- C14: when the `EVENT_READY` delivery runs first and the timer fires
second, the timeout handler is not a no-op: the task is no longer pending but
its `delay` is still 10, so the handler takes the sleep branch, clears
`delay` and calls `set_task_ready` a second time. -/
theorem event_then_timeout_two_ready_calls :
    (task_ipi_event_handler sampleConfig sampleEnv pendingState (some 0)).returned =
      some () ∧
    is_task_pending sampleConfig (pendingState.mem (TaskRef.heap 4096)) = true ∧
    is_task_pending sampleConfig (eventFirstState.mem (TaskRef.heap 4096)) = false ∧
    (eventFirstState.mem (TaskRef.heap 4096)).delay = 10 ∧
    eventFirstState.log =
      [Call.set_task_ready (TaskRef.heap 4096), Call.set_need_resched] ∧
    (task_timeout_handler sampleConfig eventFirstState (TaskRef.heap 4096)).returned =
      some () ∧
    (eventThenTimeoutState.mem (TaskRef.heap 4096)).delay = 0 ∧
    eventThenTimeoutState.log =
      [Call.set_task_ready (TaskRef.heap 4096), Call.set_need_resched,
       Call.set_task_ready (TaskRef.heap 4096), Call.set_need_resched] := by
  refine ⟨?_, ?_, ?_, ?_, ?_, ?_, ?_, ?_⟩ <;> decide

/-! ## The idle tasks -/

/-- C15: on a CPU whose pcpu already has an idle task, `alloc_pid` fails with
-1, but the check `pid < -1` of `create_idle_task` lets -1 pass: the call does
not panic there and goes on to write `os_task_table[-1]`. -/
theorem create_idle_task_second_call (cfg : Config) (env : Env) (s : Kernel)
    (hidle : cfg.OS_LOWEST_PRIO < cfg.OS_PRIO_IDLE)
    (hcpu : env.smp_processor_id < cfg.NR_CPUS)
    (hinst : (s.pcpu env.smp_processor_id).idle_task ≠ TaskPtr.null)
    (hvar : s.idle_task env.smp_processor_id ≠ TaskPtr.null) :
    alloc_pid cfg s cfg.OS_PRIO_IDLE (env.smp_processor_id : Int) = Outcome.ret (-1) s ∧
    create_idle_task cfg env s = Outcome.fault (Fault.table_oob (-1)) s := by
  have ha : alloc_pid cfg s cfg.OS_PRIO_IDLE (env.smp_processor_id : Int) =
      Outcome.ret (-1) s := by
    have h1 : (0 : Int) ≤ (env.smp_processor_id : Int) ∧
        (env.smp_processor_id : Int) < (cfg.NR_CPUS : Int) := by omega
    simp only [alloc_pid, gt_iff_lt, hidle, if_true, pcpu_of, h1, and_self, Int.toNat_ofNat,
      ne_eq, hinst, not_false_eq_true]
  refine ⟨ha, ?_⟩
  have h2 : ¬ ((-1 : Int) < -1) := by omega
  have h3 : ¬ ((0 : Int) ≤ -1 ∧ (-1 : Int) < (cfg.OS_NR_TASKS : Int)) := by omega
  simp only [create_idle_task, ha, h2, if_false, hcpu, not_true_eq_false, hvar, h3,
    not_false_eq_true, if_true]

/-- C15 on CPU 0 of the sample configuration, after its first
`create_idle_task`. -/
theorem create_idle_task_second_call_witness :
    alloc_pid sampleConfig idleOnceState sampleConfig.OS_PRIO_IDLE
        (sampleEnv.smp_processor_id : Int) = Outcome.ret (-1) idleOnceState ∧
    create_idle_task sampleConfig sampleEnv idleOnceState =
      Outcome.fault (Fault.table_oob (-1)) idleOnceState :=
  create_idle_task_second_call sampleConfig sampleEnv idleOnceState (by decide) (by decide)
    (by decide) (by decide)

/-! ## More facts about task construction and placement -/

theorem task_init_state_fields (cfg : Config) (s : Kernel) (task : TaskRef) (name : List Nat)
    (stack : Int) (arg prio : Nat) (pid aff : Int) (stk_size opt : Nat) :
    ((task_init cfg s task name stack arg prio pid aff stk_size opt).mem task).pend_stat = 0 ∧
    ((task_init cfg s task name stack arg prio pid aff stk_size opt).mem task).stat =
      (if opt &&& cfg.TASK_FLAGS_VCPU ≠ 0 then cfg.TASK_STAT_SUSPEND
       else cfg.TASK_STAT_RDY) ∧
    ((task_init cfg s task name stack arg prio pid aff stk_size opt).mem task).stack_origin =
      (if stack ≠ 0 then stack - (cfg.TASK_INFO_SIZE : Int)
       else (s.mem task).stack_origin) ∧
    ((task_init cfg s task name stack arg prio pid aff stk_size opt).mem task).stack_size =
      (if stack ≠ 0 then stk_size else (s.mem task).stack_size) := by
  simp only [task_init, store_mem, Function.update_same]
  split_ifs <;> simp

theorem task_init_mem_other (cfg : Config) (s : Kernel) (task : TaskRef) (name : List Nat)
    (stack : Int) (arg prio : Nat) (pid aff : Int) (stk_size opt : Nat) (r : TaskRef)
    (hr : r ≠ task) :
    (task_init cfg s task name stack arg prio pid aff stk_size opt).mem r = s.mem r := by
  simp only [task_init, store_mem, call_mem, Function.update_noteq hr]
  split_ifs <;> rfl

theorem __create_task_state (cfg : Config) (env : Env) (s : Kernel) (name : List Nat)
    (func arg prio : Nat) (pid aff : Int) (stk_size opt a : Nat)
    (hrec : env.zalloc = some a) (hstack : env.get_free_pages ≠ 0)
    (h0 : 0 ≤ pid) (h1 : pid < (cfg.OS_NR_TASKS : Int)) :
    (__create_task cfg env s name func arg prio pid aff stk_size opt).state.pcpu = s.pcpu ∧
    ((__create_task cfg env s name func arg prio pid aff stk_size opt).state.mem
      (TaskRef.heap a)).pend_stat = 0 ∧
    ((__create_task cfg env s name func arg prio pid aff stk_size opt).state.mem
      (TaskRef.heap a)).stat =
      (if opt &&& cfg.TASK_FLAGS_VCPU ≠ 0 then cfg.TASK_STAT_SUSPEND
       else cfg.TASK_STAT_RDY) ∧
    (stk_size ≠ 0 →
      ((__create_task cfg env s name func arg prio pid aff stk_size opt).state.mem
        (TaskRef.heap a)).stack_origin = env.get_free_pages - (cfg.TASK_INFO_SIZE : Int) ∧
      ((__create_task cfg env s name func arg prio pid aff stk_size opt).state.mem
        (TaskRef.heap a)).stack_size = BALIGN stk_size cfg.PAGE_SIZE) ∧
    (∀ t, t ≠ TaskRef.heap a →
      (__create_task cfg env s name func arg prio pid aff stk_size opt).state.mem t =
        s.mem t) := by
  have hp : 0 ≤ pid ∧ pid < (cfg.OS_NR_TASKS : Int) := ⟨h0, h1⟩
  have hf := task_init_state_fields cfg
  by_cases hs : stk_size = 0
  · simp only [__create_task, hrec, hs, ne_eq, not_true_eq_false, if_false, false_and,
      hp, and_self, if_true, Outcome.state]
    refine ⟨?_, ?_, ?_, ?_, ?_⟩
    · simp [task_init_pcpu]
    · simp [(hf _ _ _ _ _ _ _ _ _ _).1]
    · simp [(hf _ _ _ _ _ _ _ _ _ _).2.1]
    · intro h; exact h.elim
    · intro t ht
      simp [task_init_mem_other cfg _ _ _ _ _ _ _ _ _ _ t ht, Function.update_noteq ht]
  · have hc : ¬ (stk_size ≠ 0 ∧ env.get_free_pages = 0) := fun h => hstack h.2
    simp only [__create_task, hrec, hs, ne_eq, not_false_eq_true, if_true, hc, if_false,
      hp, and_self, Outcome.state, hstack, true_and]
    refine ⟨?_, ?_, ?_, ?_, ?_⟩
    · simp [task_init_pcpu]
    · simp [(hf _ _ _ _ _ _ _ _ _ _).1]
    · simp [(hf _ _ _ _ _ _ _ _ _ _).2.1]
    · intro _
      constructor
      · simp [(hf _ _ _ _ _ _ _ _ _ _).2.2.1, hstack]
      · simp [(hf _ _ _ _ _ _ _ _ _ _).2.2.2, hstack]
    · intro t ht
      simp [task_init_mem_other cfg _ _ _ _ _ _ _ _ _ _ t ht, Function.update_noteq ht]

theorem place_task_pcpu (cfg : Config) (env : Env) (s : Kernel) (t : TaskRef)
    (aff : Nat) (haff : aff < cfg.NR_CPUS) :
    (place_task cfg env s t cfg.OS_PRIO_PCPU aff).pcpu =
      Function.update s.pcpu aff
        { idle_task := (s.pcpu aff).idle_task
          task_list := (s.pcpu aff).task_list ++ [t]
          ready_list := if aff = env.smp_processor_id then (s.pcpu aff).ready_list ++ [t]
                        else (s.pcpu aff).ready_list
          new_list := if aff = env.smp_processor_id then (s.pcpu aff).new_list
                      else (s.pcpu aff).new_list ++ [t]
          nr_pcpu_task := (s.pcpu aff).nr_pcpu_task + 1 } := by
  simp only [place_task, haff, and_self, if_true]
  split_ifs <;> rfl

theorem activate_task_pcpu (cfg : Config) (env : Env) (s : Kernel) (t : TaskRef)
    (aff : Nat) : (activate_task cfg env s t aff).pcpu = s.pcpu := by
  simp only [activate_task]; split_ifs <;> rfl

theorem activate_task_log_percpu (cfg : Config) (env : Env) (s : Kernel) (t : TaskRef)
    (aff : Nat) (hrt : cfg.OS_LOWEST_PRIO < (s.mem t).prio) :
    (activate_task cfg env s t aff).log =
      s.log ++ (if (s.mem t).flags &&& cfg.TASK_FLAGS_VCPU = 0 ∧ aff ≠ env.smp_processor_id
        then [Call.pcpu_resched aff] else []) := by
  have h : ¬ (s.mem t).prio ≤ cfg.OS_LOWEST_PRIO := by omega
  simp only [activate_task, is_realtime_task, h, decide_False, Bool.false_eq_true, if_false]
  split_ifs <;> simp_all

theorem __create_task_log (cfg : Config) (env : Env) (s : Kernel) (name : List Nat)
    (func arg prio : Nat) (pid aff : Int) (stk_size opt a : Nat)
    (hrec : env.zalloc = some a) (hstack : env.get_free_pages ≠ 0)
    (h0 : 0 ≤ pid) (h1 : pid < (cfg.OS_NR_TASKS : Int)) :
    ∃ calls, (__create_task cfg env s name func arg prio pid aff stk_size opt).state.log =
        s.log ++ calls ∧
      ∀ c, c ∈ calls → c ≠ Call.sched ∧ ∀ cpu, c ≠ Call.pcpu_resched cpu := by
  have hp : 0 ≤ pid ∧ pid < (cfg.OS_NR_TASKS : Int) := ⟨h0, h1⟩
  have hl := task_init_log cfg
  by_cases hs : stk_size = 0
  · simp only [__create_task, hrec, hs, ne_eq, not_true_eq_false, if_false, false_and,
      hp, and_self, if_true, Outcome.state, call_log, hl, store_log, List.append_assoc]
    refine ⟨_, rfl, ?_⟩
    intro c hc
    constructor
    · rintro rfl; simp at hc
    · rintro cpu rfl; simp at hc
  · have hc : ¬ (stk_size ≠ 0 ∧ env.get_free_pages = 0) := fun h => hstack h.2
    simp only [__create_task, hrec, hs, ne_eq, not_false_eq_true, if_true, hc, if_false,
      hp, and_self, Outcome.state, hstack, true_and, call_log, hl, store_log,
      List.append_assoc]
    refine ⟨_, rfl, ?_⟩
    intro c hc
    constructor
    · rintro rfl; simp at hc
    · rintro cpu rfl; simp at hc

theorem create_task_pcpu_ok (cfg : Config) (env : Env) (s : Kernel) (name : List Nat)
    (func arg aff opt a p r : Nat)
    (hbits : 0 < cfg.BITS_PER_LONG)
    (hpcpu : cfg.OS_LOWEST_PRIO < cfg.OS_PRIO_PCPU)
    (hni : cfg.OS_PRIO_PCPU ≠ cfg.OS_PRIO_IDLE)
    (hper : cfg.NR_CPUS ≤ cfg.PCPU_AFF_PERCPU)
    (h16 : cfg.NR_CPUS ≤ 65536)
    (hguard : aff < cfg.NR_CPUS ∨ aff = cfg.PCPU_AFF_NONE)
    (hres : r = if aff = cfg.PCPU_AFF_NONE then 0 else aff)
    (hr : r < cfg.NR_CPUS)
    (h1 : cfg.OS_REALTIME_TASK ≤ p) (h2 : p < cfg.OS_NR_TASKS) (h3 : s.pid_map p = false)
    (h4 : ∀ q, cfg.OS_REALTIME_TASK ≤ q → q < p → s.pid_map q = true)
    (hrec : env.zalloc = some a) (hstack : env.get_free_pages ≠ 0) :
    ∃ s1 calls,
      create_task cfg env s name func arg cfg.OS_PRIO_PCPU aff opt =
        Outcome.ret (p : Int) s1 ∧
      s1.pid_map = Function.update s.pid_map p true ∧
      s1.os_task_table =
        Function.update s.os_task_table p (TaskPtr.obj (TaskRef.heap a)) ∧
      s1.pcpu = Function.update s.pcpu r
        { idle_task := (s.pcpu r).idle_task
          task_list := (s.pcpu r).task_list ++ [TaskRef.heap a]
          ready_list := if r = env.smp_processor_id then
              (s.pcpu r).ready_list ++ [TaskRef.heap a]
            else (s.pcpu r).ready_list
          new_list := if r = env.smp_processor_id then (s.pcpu r).new_list
            else (s.pcpu r).new_list ++ [TaskRef.heap a]
          nr_pcpu_task := (s.pcpu r).nr_pcpu_task + 1 } ∧
      (s1.mem (TaskRef.heap a)).prio = cfg.OS_PRIO_PCPU ∧
      (s1.mem (TaskRef.heap a)).pid = (p : Int) ∧
      (s1.mem (TaskRef.heap a)).affinity = (r : Int) ∧
      (s1.mem (TaskRef.heap a)).pend_stat = 0 ∧
      (s1.mem (TaskRef.heap a)).stat =
        (if opt &&& cfg.TASK_FLAGS_VCPU ≠ 0 then cfg.TASK_STAT_SUSPEND
         else cfg.TASK_STAT_RDY) ∧
      (∀ t, t ≠ TaskRef.heap a → s1.mem t = s.mem t) ∧
      s1.log = s.log ++ calls ∧
      Call.sched ∉ calls ∧
      (∀ c, Call.pcpu_resched c ∈ calls ↔
        (opt &&& cfg.TASK_FLAGS_VCPU = 0 ∧ r ≠ env.smp_processor_id ∧ c = r)) := by
  have hg : ¬ (aff ≥ cfg.NR_CPUS ∧ aff ≠ cfg.PCPU_AFF_NONE) := by
    rintro ⟨g1, g2⟩
    rcases hguard with g | g
    · omega
    · exact g2 g
  have ha : alloc_pid cfg s cfg.OS_PRIO_PCPU (aff : Int) =
      Outcome.ret (p : Int) { s with pid_map := Function.update s.pid_map p true } :=
    (alloc_pid_eq_scan cfg s cfg.OS_PRIO_PCPU (aff : Int) hpcpu
      (fun h => absurd h hni)).trans (alloc_pid_scan_least cfg s hbits p h1 h2 h3 h4)
  have hnn : ¬ ((p : Int) < 0) := by omega
  have hp0 : (0 : Int) ≤ (p : Int) := by omega
  have hp1 : (p : Int) < (cfg.OS_NR_TASKS : Int) := by omega
  obtain ⟨s2, e2, m2, t2, _, _, fpid, fprio, faff, _, fflags, _⟩ :=
    __create_task_ok cfg env
      { s with pid_map := Function.update s.pid_map p true }
      name func arg cfg.OS_PRIO_PCPU (p : Int) (aff : Int) cfg.TASK_STACK_SIZE opt a hrec hstack
      hp0 hp1
  have st := __create_task_state cfg env
      { s with pid_map := Function.update s.pid_map p true }
      name func arg cfg.OS_PRIO_PCPU (p : Int) (aff : Int) cfg.TASK_STACK_SIZE opt a hrec hstack
      hp0 hp1
  obtain ⟨calls2, l2, n2⟩ := __create_task_log cfg env
      { s with pid_map := Function.update s.pid_map p true }
      name func arg cfg.OS_PRIO_PCPU (p : Int) (aff : Int) cfg.TASK_STACK_SIZE opt a hrec hstack
      hp0 hp1
  rw [e2] at st l2
  simp only [Outcome.state] at st l2
  obtain ⟨spcpu, spend, sstat, _, sother⟩ := st
  have faffr : (s2.mem (TaskRef.heap a)).affinity = (r : Int) := by
    rw [faff, hres]
    by_cases hn : aff = cfg.PCPU_AFF_NONE
    · have : (aff : Int) = (cfg.PCPU_AFF_NONE : Int) := by omega
      simp [hn]
    · have hlt : aff < cfg.NR_CPUS := by
        rcases hguard with g | g
        · exact g
        · exact absurd g hn
      have n1 : ¬ ((aff : Int) = (cfg.PCPU_AFF_NONE : Int)) := by omega
      have n2 : ¬ ((aff : Int) = (cfg.PCPU_AFF_PERCPU : Int)) := by omega
      simp [hn, n1, n2]
  have hmod : ((r : Int) % 65536).toNat = r := by omega
  have fflags0 : (s2.mem (TaskRef.heap a)).flags = opt := by
    rw [fflags, if_neg hni]
  have e : create_task cfg env s name func arg cfg.OS_PRIO_PCPU aff opt =
      Outcome.ret (p : Int)
        (activate_task cfg env
          (place_task cfg env
            ((s2.call (Call.do_hooks (TaskPtr.obj (TaskRef.heap a)))).call
              (Call.arch_init_task (TaskRef.heap a) func (s2.mem (TaskRef.heap a)).udata))
            (TaskRef.heap a) cfg.OS_PRIO_PCPU r) (TaskRef.heap a) r) := by
    simp only [create_task, hg, if_false, ha, hnn, e2, create_task_finish, call_mem, faffr,
      hmod]
    rfl
  have hlog : (activate_task cfg env
          (place_task cfg env
            ((s2.call (Call.do_hooks (TaskPtr.obj (TaskRef.heap a)))).call
              (Call.arch_init_task (TaskRef.heap a) func (s2.mem (TaskRef.heap a)).udata))
            (TaskRef.heap a) cfg.OS_PRIO_PCPU r) (TaskRef.heap a) r).log =
      s.log ++ (calls2 ++ ([Call.do_hooks (TaskPtr.obj (TaskRef.heap a)),
          Call.arch_init_task (TaskRef.heap a) func (s2.mem (TaskRef.heap a)).udata] ++
        (if opt &&& cfg.TASK_FLAGS_VCPU = 0 ∧ r ≠ env.smp_processor_id
          then [Call.pcpu_resched r] else []))) := by
    rw [activate_task_log_percpu cfg env _ _ _
      (by simp only [place_task_mem, call_mem, fprio]; exact hpcpu)]
    simp only [place_task_mem, place_task_log, call_mem, call_log, fflags0, l2,
      List.append_assoc, List.singleton_append]
  refine ⟨_, _, e, ?_, ?_, ?_, ?_, ?_, ?_, ?_, ?_, ?_, hlog, ?_, ?_⟩
  · simp [activate_task_pid_map, place_task_pid_map, m2]
  · simp [activate_task_os_task_table, place_task_os_task_table, t2]
  · rw [activate_task_pcpu, place_task_pcpu cfg env _ _ r hr]
    simp only [call_pcpu, spcpu]
  · simp [activate_task_mem, place_task_mem, fprio]
  · simp [activate_task_mem, place_task_mem, fpid]
  · simp [activate_task_mem, place_task_mem, faffr]
  · simp [activate_task_mem, place_task_mem, spend]
  · simp [activate_task_mem, place_task_mem, sstat]
  · intro t ht
    simp [activate_task_mem, place_task_mem, sother t ht]
  · intro hmem
    simp only [List.mem_append, List.mem_cons, List.mem_singleton, List.not_mem_nil,
      or_false] at hmem
    rcases hmem with h | h | h
    · exact (n2 _ h).1 rfl
    · rcases h with h | h <;> cases h
    · split_ifs at h <;> simp at h
  · intro c
    constructor
    · intro hmem
      simp only [List.mem_append, List.mem_cons, List.mem_singleton, List.not_mem_nil,
        or_false] at hmem
      rcases hmem with h | h | h
      · exact absurd rfl ((n2 _ h).2 c)
      · rcases h with h | h <;> cases h
      · split_ifs at h with hc
        · simp only [List.mem_singleton, Call.pcpu_resched.injEq] at h
          exact ⟨hc.1, hc.2, h⟩
        · simp at h
    · rintro ⟨c1, c2, c3⟩
      subst c3
      simp [c1, c2]

/-! ## Initial state of a task, and VCPU tasks -/

/-- C17: a task initialised by `task_init` has `pend_stat == 0` and `stat`
equal to `TASK_STAT_SUSPEND` when its flags have the VCPU bit and to
`TASK_STAT_RDY` otherwise; and a `create_vcpu_task` on a real CPU `aff` with
the VCPU bit in `flags`, a free identity and both allocations succeeding
returns the new pid, whose task has priority `OS_PRIO_PCPU` and
`stat == TASK_STAT_SUSPEND`, is appended to the `task_list` of CPU `aff`, and
causes neither a `sched` nor a `pcpu_resched` call. -/
theorem task_init_stat_and_create_vcpu_task (cfg : Config) (env : Env) (s : Kernel)
    (name : List Nat) (func arg flags a p : Nat) (aff : Int)
    (hbits : 0 < cfg.BITS_PER_LONG)
    (hpcpu : cfg.OS_LOWEST_PRIO < cfg.OS_PRIO_PCPU)
    (hni : cfg.OS_PRIO_PCPU ≠ cfg.OS_PRIO_IDLE)
    (hnone : cfg.NR_CPUS ≤ cfg.PCPU_AFF_NONE)
    (hper : cfg.NR_CPUS ≤ cfg.PCPU_AFF_PERCPU)
    (h16 : cfg.NR_CPUS ≤ 65536)
    (haff0 : 0 ≤ aff) (haff1 : aff < (cfg.NR_CPUS : Int))
    (hv : flags &&& cfg.TASK_FLAGS_VCPU ≠ 0)
    (h1 : cfg.OS_REALTIME_TASK ≤ p) (h2 : p < cfg.OS_NR_TASKS) (h3 : s.pid_map p = false)
    (h4 : ∀ q, cfg.OS_REALTIME_TASK ≤ q → q < p → s.pid_map q = true)
    (hrec : env.zalloc = some a) (hstack : env.get_free_pages ≠ 0) :
    (∀ (s0 : Kernel) (task : TaskRef) (nm : List Nat) (stack : Int) (ar prio : Nat)
        (pid af : Int) (stk_size opt : Nat),
      ((task_init cfg s0 task nm stack ar prio pid af stk_size opt).mem task).pend_stat = 0 ∧
      ((task_init cfg s0 task nm stack ar prio pid af stk_size opt).mem task).stat =
        (if opt &&& cfg.TASK_FLAGS_VCPU ≠ 0 then cfg.TASK_STAT_SUSPEND
         else cfg.TASK_STAT_RDY)) ∧
    (∃ s1 calls,
      create_vcpu_task cfg env s name func arg aff flags = Outcome.ret (p : Int) s1 ∧
      s1.os_task_table p = TaskPtr.obj (TaskRef.heap a) ∧
      (s1.mem (TaskRef.heap a)).prio = cfg.OS_PRIO_PCPU ∧
      (s1.mem (TaskRef.heap a)).stat = cfg.TASK_STAT_SUSPEND ∧
      (s1.mem (TaskRef.heap a)).pend_stat = 0 ∧
      (s1.pcpu aff.toNat).task_list = (s.pcpu aff.toNat).task_list ++ [TaskRef.heap a] ∧
      s1.log = s.log ++ calls ∧
      Call.sched ∉ calls ∧ (∀ c, Call.pcpu_resched c ∉ calls)) := by
  constructor
  · intro s0 task nm stack ar prio pid af stk_size opt
    have h := task_init_state_fields cfg s0 task nm stack ar prio pid af stk_size opt
    exact ⟨h.1, h.2.1⟩
  · have hn : (aff % 65536).toNat = aff.toNat := by omega
    have hlt : aff.toNat < cfg.NR_CPUS := by omega
    have hnn : aff.toNat ≠ cfg.PCPU_AFF_NONE := by omega
    have hvv : (flags &&& cfg.TASK_FLAGS_VCPU) &&& cfg.TASK_FLAGS_VCPU ≠ 0 := by
      rw [Nat.land_assoc, Nat.and_self]; exact hv
    obtain ⟨s1, calls, e, _, t, pc, fprio, _, _, fpend, fstat, _, l, ns, nr⟩ :=
      create_task_pcpu_ok cfg env s name func arg aff.toNat (flags &&& cfg.TASK_FLAGS_VCPU)
        a p aff.toNat hbits hpcpu hni hper h16 (Or.inl hlt) (by rw [if_neg hnn]) hlt
        h1 h2 h3 h4 hrec hstack
    refine ⟨s1, calls, ?_, ?_, fprio, ?_, fpend, ?_, l, ns, ?_⟩
    · simp only [create_vcpu_task, hn]; exact e
    · rw [t, Function.update_same]
    · rw [fstat, if_pos hvv]
    · rw [pc, Function.update_same]
    · intro c hc
      exact hvv ((nr c).mp hc).1

/-- C17 for `create_vcpu_task("v", f, NULL, 1, VCPU)` in the boot state of the
sample configuration. -/
theorem task_init_stat_and_create_vcpu_task_witness :
    (∀ (s0 : Kernel) (task : TaskRef) (nm : List Nat) (stack : Int) (ar prio : Nat)
        (pid af : Int) (stk_size opt : Nat),
      ((task_init sampleConfig s0 task nm stack ar prio pid af stk_size opt).mem
        task).pend_stat = 0 ∧
      ((task_init sampleConfig s0 task nm stack ar prio pid af stk_size opt).mem
        task).stat =
        (if opt &&& sampleConfig.TASK_FLAGS_VCPU ≠ 0 then sampleConfig.TASK_STAT_SUSPEND
         else sampleConfig.TASK_STAT_RDY)) ∧
    (∃ s1 calls,
      create_vcpu_task sampleConfig sampleEnv Kernel.boot [118] 7 0 1 2 =
        Outcome.ret ((64 : Nat) : Int) s1 ∧
      s1.os_task_table 64 = TaskPtr.obj (TaskRef.heap 4096) ∧
      (s1.mem (TaskRef.heap 4096)).prio = sampleConfig.OS_PRIO_PCPU ∧
      (s1.mem (TaskRef.heap 4096)).stat = sampleConfig.TASK_STAT_SUSPEND ∧
      (s1.mem (TaskRef.heap 4096)).pend_stat = 0 ∧
      (s1.pcpu (1 : Int).toNat).task_list =
        (Kernel.boot.pcpu (1 : Int).toNat).task_list ++ [TaskRef.heap 4096] ∧
      s1.log = Kernel.boot.log ++ calls ∧
      Call.sched ∉ calls ∧ (∀ c, Call.pcpu_resched c ∉ calls)) :=
  task_init_stat_and_create_vcpu_task sampleConfig sampleEnv Kernel.boot [118] 7 0 2 4096 64 1
    (by decide) (by decide) (by decide) (by decide) (by decide) (by decide) (by decide)
    (by decide) (by decide) (by decide) (by decide) rfl
    (fun q h1 h2 => absurd h2 (Nat.not_lt.mpr h1)) rfl (by decide)

/-! ## The stack header -/

/-- C18: `__create_task` hands the base of the allocated stack region to
`task_init`, which subtracts `sizeof(struct task_info)` from it: for a region
of 8192 bytes at base 1048576 the header is put at 1048560, below the region,
and not at `base + size - sizeof(struct task_info)`; `stack_size` is the
page-aligned size. -/
theorem create_task_stack_origin_below_base :
    (create_task sampleConfig sampleEnv Kernel.boot [119] 7 0 64 0 0).returned = some 64 ∧
    oneTaskState.os_task_table 64 = TaskPtr.obj (TaskRef.heap 4096) ∧
    sampleEnv.get_free_pages = 1048576 ∧
    BALIGN sampleConfig.TASK_STACK_SIZE sampleConfig.PAGE_SIZE = 8192 ∧
    (oneTaskState.mem (TaskRef.heap 4096)).stack_size = 8192 ∧
    (oneTaskState.mem (TaskRef.heap 4096)).stack_origin = 1048576 - 16 ∧
    (oneTaskState.mem (TaskRef.heap 4096)).stack_origin < sampleEnv.get_free_pages ∧
    (oneTaskState.mem (TaskRef.heap 4096)).stack_origin ≠
      sampleEnv.get_free_pages + 8192 - (sampleConfig.TASK_INFO_SIZE : Int) := by
  refine ⟨?_, ?_, ?_, ?_, ?_, ?_, ?_, ?_⟩ <;> decide

/-! ## Placement of per-CPU tasks -/

/-- C19: a `create_task` of priority `OS_PRIO_PCPU` whose affinity resolves
to the CPU `r`, with a free identity and both allocations succeeding, appends
the new task to `task_list` of `r` and adds 1 to `nr_pcpu_task`; the task goes
to `ready_list` of `r` when `r` is the creating CPU and to `new_list`
otherwise, and for flags without the VCPU bit `pcpu_resched(r)` is called
exactly when `r` is not the creating CPU.  On a system with 2 CPUs,
`create_percpu_task` from CPU `c` then leaves one new task on each
`task_list`, the one of `c` in its `ready_list`, the other in the `new_list`
of the other CPU, which gets a `pcpu_resched`. -/
theorem create_task_percpu_placement (cfg : Config) (env : Env) (s : Kernel)
    (name : List Nat) (func arg aff opt a p r : Nat)
    (hbits : 0 < cfg.BITS_PER_LONG)
    (hpcpu : cfg.OS_LOWEST_PRIO < cfg.OS_PRIO_PCPU)
    (hni : cfg.OS_PRIO_PCPU ≠ cfg.OS_PRIO_IDLE)
    (hper : cfg.NR_CPUS ≤ cfg.PCPU_AFF_PERCPU)
    (h16 : cfg.NR_CPUS ≤ 65536)
    (hguard : aff < cfg.NR_CPUS ∨ aff = cfg.PCPU_AFF_NONE)
    (hres : r = if aff = cfg.PCPU_AFF_NONE then 0 else aff)
    (hr : r < cfg.NR_CPUS)
    (h1 : cfg.OS_REALTIME_TASK ≤ p) (h2 : p < cfg.OS_NR_TASKS) (h3 : s.pid_map p = false)
    (h4 : ∀ q, cfg.OS_REALTIME_TASK ≤ q → q < p → s.pid_map q = true)
    (hrec : env.zalloc = some a) (hstack : env.get_free_pages ≠ 0) :
    (∃ s1 calls,
      create_task cfg env s name func arg cfg.OS_PRIO_PCPU aff opt =
        Outcome.ret (p : Int) s1 ∧
      s1.os_task_table p = TaskPtr.obj (TaskRef.heap a) ∧
      (s1.mem (TaskRef.heap a)).prio = cfg.OS_PRIO_PCPU ∧
      (s1.pcpu r).task_list = (s.pcpu r).task_list ++ [TaskRef.heap a] ∧
      (s1.pcpu r).nr_pcpu_task = (s.pcpu r).nr_pcpu_task + 1 ∧
      (r = env.smp_processor_id →
        (s1.pcpu r).ready_list = (s.pcpu r).ready_list ++ [TaskRef.heap a] ∧
        (s1.pcpu r).new_list = (s.pcpu r).new_list) ∧
      (r ≠ env.smp_processor_id →
        (s1.pcpu r).new_list = (s.pcpu r).new_list ++ [TaskRef.heap a] ∧
        (s1.pcpu r).ready_list = (s.pcpu r).ready_list) ∧
      s1.log = s.log ++ calls ∧
      (opt &&& cfg.TASK_FLAGS_VCPU = 0 →
        (Call.pcpu_resched r ∈ calls ↔ r ≠ env.smp_processor_id))) ∧
    (∀ (env0 env1 : Env) (a0 a1 q c : Nat),
      cfg.NR_CPUS = 2 → 2 ≤ cfg.PCPU_AFF_NONE →
      env0.smp_processor_id = c → env1.smp_processor_id = c → c < 2 →
      opt &&& cfg.TASK_FLAGS_VCPU = 0 →
      env0.zalloc = some a0 → env0.get_free_pages ≠ 0 →
      env1.zalloc = some a1 → env1.get_free_pages ≠ 0 → a0 ≠ a1 →
      p < q → q < cfg.OS_NR_TASKS → s.pid_map q = false →
      (∀ j, p < j → j < q → s.pid_map j = true) →
      ∃ s2 calls,
        create_percpu_task cfg [(0, env0), (1, env1)] s name func arg opt =
          Outcome.ret 0 s2 ∧
        (s2.mem (TaskRef.heap a0)).prio = cfg.OS_PRIO_PCPU ∧
        (s2.mem (TaskRef.heap a1)).prio = cfg.OS_PRIO_PCPU ∧
        (s2.pcpu 0).task_list = (s.pcpu 0).task_list ++ [TaskRef.heap a0] ∧
        (s2.pcpu 1).task_list = (s.pcpu 1).task_list ++ [TaskRef.heap a1] ∧
        s2.log = s.log ++ calls ∧
        (c = 0 →
          (s2.pcpu 0).ready_list = (s.pcpu 0).ready_list ++ [TaskRef.heap a0] ∧
          (s2.pcpu 1).new_list = (s.pcpu 1).new_list ++ [TaskRef.heap a1] ∧
          Call.pcpu_resched 1 ∈ calls ∧ Call.pcpu_resched 0 ∉ calls) ∧
        (c = 1 →
          (s2.pcpu 1).ready_list = (s.pcpu 1).ready_list ++ [TaskRef.heap a1] ∧
          (s2.pcpu 0).new_list = (s.pcpu 0).new_list ++ [TaskRef.heap a0] ∧
          Call.pcpu_resched 0 ∈ calls ∧ Call.pcpu_resched 1 ∉ calls)) := by
  constructor
  · obtain ⟨s1, calls, e, _, t, pc, fprio, _, _, _, _, _, l, _, nr⟩ :=
      create_task_pcpu_ok cfg env s name func arg aff opt a p r hbits hpcpu hni hper h16
        hguard hres hr h1 h2 h3 h4 hrec hstack
    refine ⟨s1, calls, e, ?_, fprio, ?_, ?_, ?_, ?_, l, ?_⟩
    · rw [t, Function.update_same]
    · rw [pc, Function.update_same]
    · rw [pc, Function.update_same]
    · intro hc; rw [pc, Function.update_same]; simp [hc]
    · intro hc; rw [pc, Function.update_same]; simp [hc]
    · intro hv
      rw [nr r]
      constructor
      · intro h; exact h.2.1
      · intro h; exact ⟨hv, h, rfl⟩
  · intro env0 env1 a0 a1 q c hcpus hnone hc0 hc1 hc hv hz0 hp0 hz1 hp1 hne hpq hq hqc hbetween
    have n0 : (0 : Nat) ≠ cfg.PCPU_AFF_NONE := by omega
    have n1 : (1 : Nat) ≠ cfg.PCPU_AFF_NONE := by omega
    obtain ⟨s1, calls1, e1, m1, _, pc1, fprio1, _, _, _, _, _, l1, _, nr1⟩ :=
      create_task_pcpu_ok cfg env0 s name func arg 0 opt a0 p 0 hbits hpcpu hni hper h16
        (Or.inl (by omega)) (by rw [if_neg n0]) (by omega) h1 h2 h3 h4 hz0 hp0
    have hq3 : s1.pid_map q = false := by
      rw [m1, Function.update_noteq (by omega)]; exact hqc
    have hq4 : ∀ j, cfg.OS_REALTIME_TASK ≤ j → j < q → s1.pid_map j = true := by
      intro j hj1 hj2
      rw [m1]
      by_cases hjp : j = p
      · subst hjp; simp
      · rw [Function.update_noteq hjp]
        by_cases hlt : j < p
        · exact h4 j hj1 hlt
        · exact hbetween j (by omega) hj2
    obtain ⟨s2, calls2, e2, _, _, pc2, fprio2, _, _, _, _, other2, l2, _, nr2⟩ :=
      create_task_pcpu_ok cfg env1 s1 name func arg 1 opt a1 q 1 hbits hpcpu hni hper h16
        (Or.inl (by omega)) (by rw [if_neg n1]) (by omega) (by omega) hq hq3 hq4 hz1 hp1
    have hnn : ¬ ((p : Int) < 0) := by omega
    have hnq : ¬ ((q : Int) < 0) := by omega
    have e : create_percpu_task cfg [(0, env0), (1, env1)] s name func arg opt =
        Outcome.ret 0 s2 := by
      simp only [create_percpu_task, create_percpu_task_loop, e1, hnn, if_false, e2, hnq]
    have hne' : TaskRef.heap a0 ≠ TaskRef.heap a1 := fun h => hne (TaskRef.heap.inj h)
    have p10 : s1.pcpu 1 = s.pcpu 1 := by
      rw [pc1, Function.update_noteq (by decide)]
    have p20 : s2.pcpu 0 = s1.pcpu 0 := by
      rw [pc2, Function.update_noteq (by decide)]
    refine ⟨s2, calls1 ++ calls2, e, ?_, fprio2, ?_, ?_, ?_, ?_, ?_⟩
    · rw [other2 _ hne']; exact fprio1
    · rw [p20, pc1, Function.update_same]
    · rw [pc2, Function.update_same, p10]
    · rw [l2, l1, List.append_assoc]
    · intro hcz
      have c0 : (0 : Nat) = env0.smp_processor_id := by omega
      have c1 : ¬ ((1 : Nat) = env1.smp_processor_id) := by omega
      refine ⟨?_, ?_, ?_, ?_⟩
      · rw [p20, pc1, Function.update_same]; simp [c0]
      · rw [pc2, Function.update_same, p10]; simp [c1]
      · exact List.mem_append_right _ ((nr2 1).mpr ⟨hv, c1, rfl⟩)
      · intro hmem
        rcases List.mem_append.mp hmem with h | h
        · exact ((nr1 0).mp h).2.1 c0
        · have := ((nr2 0).mp h).2.2
          omega
    · intro hco
      have c0 : ¬ ((0 : Nat) = env0.smp_processor_id) := by omega
      have c1 : (1 : Nat) = env1.smp_processor_id := by omega
      refine ⟨?_, ?_, ?_, ?_⟩
      · rw [pc2, Function.update_same, p10]; simp [c1]
      · rw [p20, pc1, Function.update_same]; simp [c0]
      · exact List.mem_append_left _ ((nr1 0).mpr ⟨hv, c0, rfl⟩)
      · intro hmem
        rcases List.mem_append.mp hmem with h | h
        · have := ((nr1 1).mp h).2.2
          omega
        · exact ((nr2 1).mp h).2.1 c1

/-- C19 in the boot state of the sample configuration with 2 CPUs: one task
created from CPU 0 for CPU 1, and `create_percpu_task("w", f, NULL, 0)` from
CPU 0. -/
theorem create_task_percpu_placement_witness :
    (∃ s1 calls,
      create_task twoCpuConfig sampleEnv Kernel.boot [119] 7 0 twoCpuConfig.OS_PRIO_PCPU 1 0 =
        Outcome.ret ((64 : Nat) : Int) s1 ∧
      s1.os_task_table 64 = TaskPtr.obj (TaskRef.heap 4096) ∧
      (s1.mem (TaskRef.heap 4096)).prio = twoCpuConfig.OS_PRIO_PCPU ∧
      (s1.pcpu 1).task_list = (Kernel.boot.pcpu 1).task_list ++ [TaskRef.heap 4096] ∧
      (s1.pcpu 1).nr_pcpu_task = (Kernel.boot.pcpu 1).nr_pcpu_task + 1 ∧
      (1 = sampleEnv.smp_processor_id →
        (s1.pcpu 1).ready_list = (Kernel.boot.pcpu 1).ready_list ++ [TaskRef.heap 4096] ∧
        (s1.pcpu 1).new_list = (Kernel.boot.pcpu 1).new_list) ∧
      (1 ≠ sampleEnv.smp_processor_id →
        (s1.pcpu 1).new_list = (Kernel.boot.pcpu 1).new_list ++ [TaskRef.heap 4096] ∧
        (s1.pcpu 1).ready_list = (Kernel.boot.pcpu 1).ready_list) ∧
      s1.log = Kernel.boot.log ++ calls ∧
      (0 &&& twoCpuConfig.TASK_FLAGS_VCPU = 0 →
        (Call.pcpu_resched 1 ∈ calls ↔ 1 ≠ sampleEnv.smp_processor_id))) ∧
    (∃ s2 calls,
      create_percpu_task twoCpuConfig [(0, sampleEnv), (1, secondEnv)] Kernel.boot [119] 7 0 0 =
        Outcome.ret 0 s2 ∧
      (s2.mem (TaskRef.heap 4096)).prio = twoCpuConfig.OS_PRIO_PCPU ∧
      (s2.mem (TaskRef.heap 8192)).prio = twoCpuConfig.OS_PRIO_PCPU ∧
      (s2.pcpu 0).task_list = (Kernel.boot.pcpu 0).task_list ++ [TaskRef.heap 4096] ∧
      (s2.pcpu 1).task_list = (Kernel.boot.pcpu 1).task_list ++ [TaskRef.heap 8192] ∧
      s2.log = Kernel.boot.log ++ calls ∧
      ((0 : Nat) = 0 →
        (s2.pcpu 0).ready_list = (Kernel.boot.pcpu 0).ready_list ++ [TaskRef.heap 4096] ∧
        (s2.pcpu 1).new_list = (Kernel.boot.pcpu 1).new_list ++ [TaskRef.heap 8192] ∧
        Call.pcpu_resched 1 ∈ calls ∧ Call.pcpu_resched 0 ∉ calls) ∧
      ((0 : Nat) = 1 →
        (s2.pcpu 1).ready_list = (Kernel.boot.pcpu 1).ready_list ++ [TaskRef.heap 8192] ∧
        (s2.pcpu 0).new_list = (Kernel.boot.pcpu 0).new_list ++ [TaskRef.heap 4096] ∧
        Call.pcpu_resched 0 ∈ calls ∧ Call.pcpu_resched 1 ∉ calls)) :=
  ⟨(create_task_percpu_placement twoCpuConfig sampleEnv Kernel.boot [119] 7 0 1 0 4096 64 1
      (by decide) (by decide) (by decide) (by decide) (by decide) (Or.inl (by decide))
      (by decide) (by decide) (by decide) (by decide) rfl
      (fun q h1 h2 => absurd h2 (Nat.not_lt.mpr h1)) rfl (by decide)).1,
   (create_task_percpu_placement twoCpuConfig sampleEnv Kernel.boot [119] 7 0 1 0 4096 64 1
      (by decide) (by decide) (by decide) (by decide) (by decide) (Or.inl (by decide))
      (by decide) (by decide) (by decide) (by decide) rfl
      (fun q h1 h2 => absurd h2 (Nat.not_lt.mpr h1)) rfl (by decide)).2
      sampleEnv secondEnv 4096 8192 65 0 rfl (by decide) rfl rfl (by decide) rfl rfl
      (by decide) rfl (by decide) (by decide) (by decide) (by decide) rfl
      (fun j h1 h2 => absurd h2 (by omega))⟩

/-! ## Cross-CPU event delivery -/

theorem release_task_event_ok (cfg : Config) (s : Kernel) (e : Nat)
    (hb : bit_in_bounds cfg NR_TASK_EVENT (s.task_events e).id = true) :
    release_task_event cfg s e =
      Outcome.ret ()
        { s with task_event_map :=
            Function.update s.task_event_map (s.task_events e).id.toNat false } := by
  simp only [release_task_event, clear_bit, hb, if_true]

theorem task_ipi_event_action_task_events (cfg : Config) (s : Kernel) (ev : TaskEvent)
    (task : TaskRef) : (task_ipi_event_action cfg s ev task).task_events = s.task_events := by
  simp only [task_ipi_event_action]; split_ifs <;> rfl

theorem task_ipi_event_action_task_event_map (cfg : Config) (s : Kernel) (ev : TaskEvent)
    (task : TaskRef) :
    (task_ipi_event_action cfg s ev task).task_event_map = s.task_event_map := by
  simp only [task_ipi_event_action]; split_ifs <;> rfl

theorem task_ipi_event_handler_home (cfg : Config) (env : Env) (s : Kernel) (e : Nat)
    (task : TaskRef) (hbits : 0 < cfg.BITS_PER_LONG)
    (hev : (s.task_events e).task = TaskPtr.obj task)
    (hid0 : 0 ≤ (s.task_events e).id)
    (hid1 : (s.task_events e).id < (NR_TASK_EVENT : Int))
    (haff : (s.mem task).affinity = (env.smp_processor_id : Int))
    (hper : (s.mem task).prio = cfg.OS_PRIO_PCPU) :
    task_ipi_event_handler cfg env s (some e) =
      Outcome.ret ()
        { task_ipi_event_action cfg s (s.task_events e) task with
            task_event_map :=
              Function.update s.task_event_map (s.task_events e).id.toNat false } := by
  have hb : bit_in_bounds cfg NR_TASK_EVENT (s.task_events e).id = true := by
    have := le_bitmap_bits cfg hbits NR_TASK_EVENT
    simp only [bit_in_bounds, Bool.and_eq_true, decide_eq_true_eq]
    constructor <;> omega
  have hhome : ¬ ((s.mem task).affinity ≠ (env.smp_processor_id : Int) ∨
      ¬ is_percpu_task cfg (s.mem task) = true) := by
    simp [haff, is_percpu_task, hper]
  have hb2 : bit_in_bounds cfg NR_TASK_EVENT
      ((task_ipi_event_action cfg s (s.task_events e) task).task_events e).id = true := by
    rw [task_ipi_event_action_task_events]; exact hb
  simp only [task_ipi_event_handler, hev, hhome, if_false]
  rw [release_task_event_ok cfg _ e hb2, task_ipi_event_action_task_events,
    task_ipi_event_action_task_event_map]

theorem task_ipi_event_action_ready (cfg : Config) (s : Kernel) (ev : TaskEvent)
    (task : TaskRef) (hact : ev.action = cfg.TASK_EVENT_EVENT_READY)
    (hp : is_task_pending cfg (s.mem task) = true) :
    (task_ipi_event_action cfg s ev task).mem =
      Function.update s.mem task
        { s.mem task with msg := ev.msg, stat := and_not (s.mem task).stat ev.msk,
                          wait_event := 0 } ∧
    (task_ipi_event_action cfg s ev task).log =
      s.log ++ [Call.set_task_ready task, Call.set_need_resched] := by
  simp only [task_ipi_event_action, hact, if_true, hp, not_true_eq_false, if_false, call_mem,
    store_mem, Function.update_same, Function.update_idem, call_log, store_log,
    List.append_assoc, List.singleton_append, and_self]

theorem task_ipi_event_action_not_pending (cfg : Config) (s : Kernel) (ev : TaskEvent)
    (task : TaskRef) (hp : is_task_pending cfg (s.mem task) = false) :
    task_ipi_event_action cfg s ev task = s := by
  simp only [task_ipi_event_action, hp, Bool.false_eq_true, not_false_eq_true, if_true,
    ite_self]

/-- C20: for an `EVENT_READY` event of the pool with an id in `[0, 32)`,
delivered on the home CPU of its per-CPU task: when the task is pending, the
handler returns with `msg` copied from the event, `stat` equal to the old
`stat` with exactly the bits of `msk` cleared and `wait_event` `NULL`,
having called `set_task_ready` and `set_need_resched`; when the task is not
pending, no task record changes and nothing is called.  In both cases bit
`ev.id` of `task_event_map` is cleared. -/
theorem task_ipi_event_handler_event_ready (cfg : Config) (env : Env) (s : Kernel)
    (e : Nat) (task : TaskRef)
    (hbits : 0 < cfg.BITS_PER_LONG)
    (hev : (s.task_events e).task = TaskPtr.obj task)
    (hact : (s.task_events e).action = cfg.TASK_EVENT_EVENT_READY)
    (hid0 : 0 ≤ (s.task_events e).id)
    (hid1 : (s.task_events e).id < (NR_TASK_EVENT : Int))
    (haff : (s.mem task).affinity = (env.smp_processor_id : Int))
    (hper : (s.mem task).prio = cfg.OS_PRIO_PCPU) :
    (is_task_pending cfg (s.mem task) = true →
      ∃ s1, task_ipi_event_handler cfg env s (some e) = Outcome.ret () s1 ∧
        (s1.mem task).msg = (s.task_events e).msg ∧
        (s1.mem task).stat = and_not (s.mem task).stat (s.task_events e).msk ∧
        (∀ k, (s1.mem task).stat.testBit k =
          ((s.mem task).stat.testBit k && !(s.task_events e).msk.testBit k)) ∧
        (s1.mem task).wait_event = 0 ∧
        s1.log = s.log ++ [Call.set_task_ready task, Call.set_need_resched] ∧
        s1.task_event_map =
          Function.update s.task_event_map (s.task_events e).id.toNat false) ∧
    (is_task_pending cfg (s.mem task) = false →
      ∃ s1, task_ipi_event_handler cfg env s (some e) = Outcome.ret () s1 ∧
        s1.mem = s.mem ∧ s1.log = s.log ∧
        s1.task_event_map =
          Function.update s.task_event_map (s.task_events e).id.toNat false) := by
  have h := task_ipi_event_handler_home cfg env s e task hbits hev hid0 hid1 haff hper
  constructor
  · intro hp
    obtain ⟨hm, hl⟩ := task_ipi_event_action_ready cfg s (s.task_events e) task hact hp
    refine ⟨_, h, ?_, ?_, ?_, ?_, ?_, rfl⟩
    · show ((task_ipi_event_action cfg s (s.task_events e) task).mem task).msg = _
      rw [hm, Function.update_same]
    · show ((task_ipi_event_action cfg s (s.task_events e) task).mem task).stat = _
      rw [hm, Function.update_same]
    · intro k
      show ((task_ipi_event_action cfg s (s.task_events e) task).mem task).stat.testBit k = _
      rw [hm, Function.update_same]
      exact testBit_and_not _ _ k
    · show ((task_ipi_event_action cfg s (s.task_events e) task).mem task).wait_event = _
      rw [hm, Function.update_same]
    · exact hl
  · intro hp
    rw [task_ipi_event_action_not_pending cfg s (s.task_events e) task hp] at h
    exact ⟨_, h, rfl, rfl, rfl⟩

/-- C20 for `readyEvent` delivered on CPU 0 in `pendingState`. -/
theorem task_ipi_event_handler_event_ready_witness :
    ∃ s1, task_ipi_event_handler sampleConfig sampleEnv pendingState (some 0) =
        Outcome.ret () s1 ∧
      (s1.mem (TaskRef.heap 4096)).msg = (pendingState.task_events 0).msg ∧
      (s1.mem (TaskRef.heap 4096)).stat =
        and_not (pendingState.mem (TaskRef.heap 4096)).stat
          (pendingState.task_events 0).msk ∧
      (∀ k, (s1.mem (TaskRef.heap 4096)).stat.testBit k =
        ((pendingState.mem (TaskRef.heap 4096)).stat.testBit k &&
          !(pendingState.task_events 0).msk.testBit k)) ∧
      (s1.mem (TaskRef.heap 4096)).wait_event = 0 ∧
      s1.log = pendingState.log ++
        [Call.set_task_ready (TaskRef.heap 4096), Call.set_need_resched] ∧
      s1.task_event_map =
        Function.update pendingState.task_event_map
          (pendingState.task_events 0).id.toNat false :=
  (task_ipi_event_handler_event_ready sampleConfig sampleEnv pendingState 0
    (TaskRef.heap 4096) (by decide) rfl rfl (by decide) (by decide) rfl rfl).1 (by decide)

/-! ## Bringing up the idle tasks -/

theorem lor_land_self (x m : Nat) : (x ||| m) &&& m = m := by
  apply Nat.eq_of_testBit_eq
  intro k
  rw [Nat.testBit_and, Nat.testBit_or]
  cases x.testBit k <;> cases m.testBit k <;> rfl

theorem tasks_early_init_loop_spec (cfg : Config) :
    ∀ (n i : Nat) (sb : Int) (s : Kernel),
      (tasks_early_init_loop cfg n i sb s).pid_map = s.pid_map ∧
      (tasks_early_init_loop cfg n i sb s).os_task_table = s.os_task_table ∧
      (tasks_early_init_loop cfg n i sb s).os_task_nr = s.os_task_nr ∧
      (tasks_early_init_loop cfg n i sb s).pcpu = s.pcpu ∧
      (∀ j, i ≤ j → j < i + n →
        (tasks_early_init_loop cfg n i sb s).idle_task j = TaskPtr.obj (TaskRef.idle j)) ∧
      (∀ j, j < i → (tasks_early_init_loop cfg n i sb s).idle_task j = s.idle_task j) := by
  intro n
  induction n with
  | zero =>
    intro i sb s
    exact ⟨rfl, rfl, rfl, rfl, fun j h1 h2 => by omega, fun _ _ => rfl⟩
  | succ n ih =>
    intro i sb s
    simp only [tasks_early_init_loop]
    obtain ⟨a, b, c, d, e, f⟩ := ih (i + 1) (sb - (cfg.TASK_STACK_SIZE : Int))
      (tasks_early_init_round cfg s i sb)
    refine ⟨a.trans rfl, b.trans rfl, c.trans rfl, d.trans rfl, ?_, ?_⟩
    · intro j h1 h2
      by_cases hj : j = i
      · subst hj
        rw [f j (by omega)]
        simp [tasks_early_init_round, Kernel.call, Kernel.store]
      · exact e j (by omega) (by omega)
    · intro j hj
      rw [f j (by omega)]
      have hne : j ≠ i := by omega
      simp [tasks_early_init_round, Kernel.call, Kernel.store, Function.update_noteq hne]

theorem create_idle_task_ok (cfg : Config) (env : Env) (s : Kernel) (p : Nat)
    (hbits : 0 < cfg.BITS_PER_LONG)
    (hidle : cfg.OS_LOWEST_PRIO < cfg.OS_PRIO_IDLE)
    (hcpu : env.smp_processor_id < cfg.NR_CPUS)
    (hfree : (s.pcpu env.smp_processor_id).idle_task = TaskPtr.null)
    (hvar : s.idle_task env.smp_processor_id =
      TaskPtr.obj (TaskRef.idle env.smp_processor_id))
    (h1 : cfg.OS_REALTIME_TASK ≤ p) (h2 : p < cfg.OS_NR_TASKS) (h3 : s.pid_map p = false)
    (h4 : ∀ q, cfg.OS_REALTIME_TASK ≤ q → q < p → s.pid_map q = true) :
    ∃ s1, create_idle_task cfg env s = Outcome.ret 0 s1 ∧
      s1.pid_map = Function.update s.pid_map p true ∧
      s1.os_task_table = Function.update s.os_task_table p
        (TaskPtr.obj (TaskRef.idle env.smp_processor_id)) ∧
      s1.os_task_nr = atomic_inc s.os_task_nr ∧
      s1.idle_task = s.idle_task ∧
      s1.pcpu = Function.update s.pcpu env.smp_processor_id
        { s.pcpu env.smp_processor_id with
            idle_task := TaskPtr.obj (TaskRef.idle env.smp_processor_id) } ∧
      (∀ t, t ≠ TaskRef.idle env.smp_processor_id → s1.mem t = s.mem t) ∧
      (s1.mem (TaskRef.idle env.smp_processor_id)).pid = (p : Int) ∧
      (s1.mem (TaskRef.idle env.smp_processor_id)).prio = cfg.OS_PRIO_IDLE ∧
      (s1.mem (TaskRef.idle env.smp_processor_id)).stat = cfg.TASK_STAT_RUNNING ∧
      (s1.mem (TaskRef.idle env.smp_processor_id)).flags &&& cfg.TASK_FLAGS_IDLE =
        cfg.TASK_FLAGS_IDLE := by
  have ha : alloc_pid cfg s cfg.OS_PRIO_IDLE (env.smp_processor_id : Int) =
      Outcome.ret (p : Int) { s with pid_map := Function.update s.pid_map p true } :=
    (alloc_pid_eq_scan cfg s cfg.OS_PRIO_IDLE (env.smp_processor_id : Int) hidle
      (fun _ => ⟨by omega, by omega, by simpa using hfree⟩)).trans
      (alloc_pid_scan_least cfg s hbits p h1 h2 h3 h4)
  have c1 : ¬ ((p : Int) < -1) := by omega
  have c4 : (0 : Int) ≤ (p : Int) ∧ (p : Int) < (cfg.OS_NR_TASKS : Int) := by omega
  have hf := task_init_fields cfg
  have hsf := task_init_state_fields cfg
  have e : create_idle_task cfg env s =
      Outcome.ret 0 (create_idle_task cfg env s).state := by
    simp only [create_idle_task, ha, c1, if_false, hcpu, not_true_eq_false, hvar,
      c4, and_self, Outcome.state]
    simp
  refine ⟨_, e, ?_⟩
  simp only [create_idle_task, ha, c1, if_false, hcpu, not_true_eq_false, hvar,
    c4, and_self, Outcome.state]
  simp only [reduceCtorEq, if_false, call_pid_map, store_pid_map, task_init_pid_map,
    call_os_task_table, store_os_task_table, task_init_os_task_table, call_os_task_nr,
    store_os_task_nr, task_init_os_task_nr, call_idle_task, store_idle_task,
    task_init_idle_task, call_pcpu, store_pcpu, task_init_pcpu, call_mem, store_mem,
    Function.update_same, Int.toNat_ofNat, true_and]
  refine ⟨?_, ?_, ?_, ?_⟩
  · intro t ht
    rw [Function.update_noteq ht, task_init_mem_other cfg _ _ _ _ _ _ _ _ _ _ t ht]
  · exact (hf _ _ _ _ _ _ _ _ _ _).1
  · exact (hf _ _ _ _ _ _ _ _ _ _).2.1
  · exact lor_land_self _ _

theorem idleInv_step (cfg : Config) (env : Env) (s : Kernel) (done : List Nat)
    (hbits : 0 < cfg.BITS_PER_LONG)
    (hidle : cfg.OS_LOWEST_PRIO < cfg.OS_PRIO_IDLE)
    (hroom : cfg.OS_REALTIME_TASK + cfg.NR_CPUS ≤ cfg.OS_NR_TASKS)
    (hN : cfg.OS_NR_TASKS < 2147483648)
    (hcpu : env.smp_processor_id < cfg.NR_CPUS)
    (hnew : env.smp_processor_id ∉ done)
    (hlen : done.length < cfg.NR_CPUS)
    (hinv : IdleInv cfg s done) :
    ∃ s1, create_idle_task cfg env s = Outcome.ret 0 s1 ∧
      IdleInv cfg s1 (done ++ [env.smp_processor_id]) := by
  obtain ⟨iset, iclr, inr, ivar, inull, iinst⟩ := hinv
  obtain ⟨s1, e, m, t, n, v, pc, other, fpid, fprio, fstat, fflags⟩ :=
    create_idle_task_ok cfg env s (cfg.OS_REALTIME_TASK + done.length) hbits hidle hcpu
      (inull _ hcpu hnew) (ivar _ hcpu) (by omega) (by omega)
      (iclr _ (le_refl _) (by omega)) (fun q h1 h2 => iset q h1 h2)
  refine ⟨s1, e, ?_, ?_, ?_, ?_, ?_, ?_⟩
  · intro i h1 h2
    rw [List.length_append, List.length_singleton] at h2
    rw [m]
    by_cases hi : i = cfg.OS_REALTIME_TASK + done.length
    · rw [hi, Function.update_same]
    · rw [Function.update_noteq hi]
      exact iset i h1 (by omega)
  · intro i h1 h2
    rw [List.length_append, List.length_singleton] at h1
    rw [m, Function.update_noteq (by omega)]
    exact iclr i (by omega) h2
  · rw [n, inr, List.length_append, List.length_singleton]
    rw [atomic_inc_small _ (by omega) (by omega)]
    push_cast
    rfl
  · intro c hc
    rw [v]; exact ivar c hc
  · intro c hc hnot
    rw [List.mem_append, List.mem_singleton, not_or] at hnot
    rw [pc, Function.update_noteq hnot.2]
    exact inull c hc hnot.1
  · intro c hc
    rw [List.length_append, List.length_singleton]
    rw [List.mem_append, List.mem_singleton] at hc
    by_cases hce : c = env.smp_processor_id
    · subst hce
      refine ⟨?_, cfg.OS_REALTIME_TASK + done.length, fpid, by omega, by omega, ?_, fflags,
        fprio, fstat⟩
      · rw [pc, Function.update_same]
      · rw [t, Function.update_same]
    · have hcd : c ∈ done := by
        rcases hc with h | h
        · exact h
        · exact absurd h hce
      obtain ⟨a1, q, a2, a3, a4, a5, a6, a7, a8⟩ := iinst c hcd
      have hne : TaskRef.idle c ≠ TaskRef.idle env.smp_processor_id :=
        fun h => hce (TaskRef.idle.inj h)
      refine ⟨?_, q, ?_, a3, by omega, ?_, ?_, ?_, ?_⟩
      · rw [pc, Function.update_noteq hce]; exact a1
      · rw [other _ hne]; exact a2
      · rw [t, Function.update_noteq (by omega)]; exact a5
      · rw [other _ hne]; exact a6
      · rw [other _ hne]; exact a7
      · rw [other _ hne]; exact a8

theorem idleInv_run (cfg : Config)
    (hbits : 0 < cfg.BITS_PER_LONG)
    (hidle : cfg.OS_LOWEST_PRIO < cfg.OS_PRIO_IDLE)
    (hroom : cfg.OS_REALTIME_TASK + cfg.NR_CPUS ≤ cfg.OS_NR_TASKS)
    (hN : cfg.OS_NR_TASKS < 2147483648) :
    ∀ (envs : List Env) (s : Kernel) (done : List Nat),
      (∀ e, e ∈ envs → e.smp_processor_id < cfg.NR_CPUS) →
      (done ++ envs.map Env.smp_processor_id).Nodup →
      done.length + envs.length ≤ cfg.NR_CPUS →
      IdleInv cfg s done →
      ∃ s1, create_idle_task_each cfg envs s = Outcome.ret () s1 ∧
        IdleInv cfg s1 (done ++ envs.map Env.smp_processor_id) := by
  intro envs
  induction envs with
  | nil =>
    intro s done _ _ _ hinv
    exact ⟨s, rfl, by simpa using hinv⟩
  | cons env rest ih =>
    intro s done hcpus hnd hlen hinv
    rw [List.length_cons] at hlen
    have hnew : env.smp_processor_id ∉ done := by
      intro hmem
      rw [List.map_cons] at hnd
      have := (List.nodup_append.mp hnd).2.2
      exact this hmem (List.mem_cons_self _ _)
    obtain ⟨s1, e1, inv1⟩ := idleInv_step cfg env s done hbits hidle hroom hN
      (hcpus env (List.mem_cons_self _ _)) hnew (by omega) hinv
    have hnd1 : ((done ++ [env.smp_processor_id]) ++ rest.map Env.smp_processor_id).Nodup := by
      rw [List.append_assoc]
      simpa using hnd
    obtain ⟨s2, e2, inv2⟩ := ih s1 (done ++ [env.smp_processor_id])
      (fun e he => hcpus e (List.mem_cons_of_mem _ he)) hnd1
      (by rw [List.length_append, List.length_singleton]; omega) inv1
    refine ⟨s2, ?_, ?_⟩
    · simp only [create_idle_task_each, e1, e2]
    · rw [List.append_assoc] at inv2
      simpa using inv2

/-- C16: from an initial state in which no CPU has an idle task, after
`tasks_early_init` and one `create_idle_task` on each CPU (in any order), the
calls have all returned, `os_task_nr` is the number of CPUs, and every CPU `c`
has `pcpu(c).idle_task` pointing to `idle_tasks[c]`, a record with the IDLE
flag, priority `OS_PRIO_IDLE` and `stat == TASK_STAT_RUNNING` whose pid
indexes the table slot that holds it; the pids are pairwise distinct. -/
theorem idle_tasks_after_bring_up (cfg : Config) (s0 : Kernel) (envs : List Env)
    (hbits : 0 < cfg.BITS_PER_LONG)
    (hidle : cfg.OS_LOWEST_PRIO < cfg.OS_PRIO_IDLE)
    (hroom : cfg.OS_REALTIME_TASK + cfg.NR_CPUS ≤ cfg.OS_NR_TASKS)
    (hN : cfg.OS_NR_TASKS < 2147483648)
    (hinit : Initial s0)
    (hnone : ∀ c, c < cfg.NR_CPUS → (s0.pcpu c).idle_task = TaskPtr.null)
    (hperm : (envs.map Env.smp_processor_id).Perm (List.range cfg.NR_CPUS)) :
    ∃ s1, create_idle_task_each cfg envs (tasks_early_init cfg s0).state =
        Outcome.ret () s1 ∧
      s1.os_task_nr = (cfg.NR_CPUS : Int) ∧
      (∀ c, c < cfg.NR_CPUS → IdleInstalled cfg s1 cfg.NR_CPUS c) ∧
      (∀ c d, c < cfg.NR_CPUS → d < cfg.NR_CPUS → c ≠ d →
        (s1.mem (TaskRef.idle c)).pid ≠ (s1.mem (TaskRef.idle d)).pid) := by
  obtain ⟨i1, i2, i3⟩ := hinit
  obtain ⟨a, b, c, d, e, _⟩ := tasks_early_init_loop_spec cfg cfg.NR_CPUS 0
    (cfg.CONFIG_MINOS_ENTRY_ADDRESS : Int) s0
  have hmem : ∀ c, c ∈ envs.map Env.smp_processor_id ↔ c < cfg.NR_CPUS := by
    intro c
    rw [hperm.mem_iff, List.mem_range]
  have hlen : (envs.map Env.smp_processor_id).length = cfg.NR_CPUS := by
    rw [hperm.length_eq, List.length_range]
  have hnd : (envs.map Env.smp_processor_id).Nodup :=
    hperm.nodup_iff.mpr (List.nodup_range _)
  have inv0 : IdleInv cfg (tasks_early_init cfg s0).state [] := by
    simp only [tasks_early_init, Outcome.state]
    refine ⟨?_, ?_, ?_, ?_, ?_, ?_⟩
    · intro i h1 h2
      simp only [List.length_nil, Nat.add_zero] at h2
      omega
    · intro i _ _
      rw [a]; exact i1 i
    · rw [c, i3]; rfl
    · intro k hk
      exact e k (Nat.zero_le _) (by omega)
    · intro k hk _
      rw [d]; exact hnone k hk
    · intro k hk
      exact absurd hk (List.not_mem_nil k)
  obtain ⟨s1, e1, inv1⟩ := idleInv_run cfg hbits hidle hroom hN envs
    (tasks_early_init cfg s0).state []
    (fun ev hev => (hmem _).mp (List.mem_map_of_mem _ hev))
    (by simpa using hnd)
    (by rw [List.length_map] at hlen; simp only [List.length_nil]; omega) inv0
  rw [List.nil_append] at inv1
  obtain ⟨_, _, jnr, _, _, jinst⟩ := inv1
  rw [hlen] at jnr jinst
  have hall : ∀ c, c < cfg.NR_CPUS → IdleInstalled cfg s1 cfg.NR_CPUS c :=
    fun c hc => jinst c ((hmem c).mpr hc)
  refine ⟨s1, e1, jnr, hall, ?_⟩
  intro x y hx hy hxy heq
  obtain ⟨_, px, p1, _, _, p4, _⟩ := hall x hx
  obtain ⟨_, py, q1, _, _, q4, _⟩ := hall y hy
  rw [p1, q1] at heq
  have hpq : px = py := by omega
  rw [hpq, q4] at p4
  injection p4 with h
  injection h with h
  exact hxy h.symm

/-- C16 for the 4 CPUs of the sample configuration, from the boot state. -/
theorem idle_tasks_after_bring_up_witness :
    ∃ s1, create_idle_task_each sampleConfig bringUpEnvs
        (tasks_early_init sampleConfig Kernel.boot).state = Outcome.ret () s1 ∧
      s1.os_task_nr = (sampleConfig.NR_CPUS : Int) ∧
      (∀ c, c < sampleConfig.NR_CPUS → IdleInstalled sampleConfig s1 sampleConfig.NR_CPUS c) ∧
      (∀ c d, c < sampleConfig.NR_CPUS → d < sampleConfig.NR_CPUS → c ≠ d →
        (s1.mem (TaskRef.idle c)).pid ≠ (s1.mem (TaskRef.idle d)).pid) :=
  idle_tasks_after_bring_up sampleConfig Kernel.boot bringUpEnvs (by decide) (by decide)
    (by decide) (by decide) boot_initial (fun _ _ => rfl) (by decide)

/-! ## Stale deliveries -/

/-- C21: for an event of the pool with an id in `[0, 32)` whose task is homed
on another CPU than the executing one, or is not a per-CPU task,
`task_ipi_event_handler` returns without touching any task record and without
calling anything, so neither `set_task_ready` nor `set_need_resched`; bit
`ev.id` of `task_event_map` is cleared and nothing else in the state
changes. -/
theorem task_ipi_event_handler_stale (cfg : Config) (env : Env) (s : Kernel) (e : Nat)
    (task : TaskRef)
    (hbits : 0 < cfg.BITS_PER_LONG)
    (hev : (s.task_events e).task = TaskPtr.obj task)
    (hid0 : 0 ≤ (s.task_events e).id)
    (hid1 : (s.task_events e).id < (NR_TASK_EVENT : Int))
    (hstale : (s.mem task).affinity ≠ (env.smp_processor_id : Int) ∨
      (s.mem task).prio ≠ cfg.OS_PRIO_PCPU) :
    ∃ s1, task_ipi_event_handler cfg env s (some e) = Outcome.ret () s1 ∧
      s1 = { s with task_event_map :=
              Function.update s.task_event_map (s.task_events e).id.toNat false } ∧
      s1.mem task = s.mem task ∧
      s1.mem = s.mem ∧
      s1.log = s.log ∧
      Call.set_task_ready task ∉ s1.log.drop s.log.length ∧
      Call.set_need_resched ∉ s1.log.drop s.log.length ∧
      s1.task_event_map (s.task_events e).id.toNat = false := by
  have hb : bit_in_bounds cfg NR_TASK_EVENT (s.task_events e).id = true := by
    have := le_bitmap_bits cfg hbits NR_TASK_EVENT
    simp only [bit_in_bounds, Bool.and_eq_true, decide_eq_true_eq]
    constructor <;> omega
  have hcond : (s.mem task).affinity ≠ (env.smp_processor_id : Int) ∨
      ¬ is_percpu_task cfg (s.mem task) = true := by
    rcases hstale with h | h
    · exact Or.inl h
    · right
      simp [is_percpu_task, h]
  have h : task_ipi_event_handler cfg env s (some e) =
      Outcome.ret ()
        { s with task_event_map :=
            Function.update s.task_event_map (s.task_events e).id.toNat false } := by
    simp only [task_ipi_event_handler, hev, hcond, if_true]
    exact release_task_event_ok cfg s e hb
  refine ⟨_, h, rfl, rfl, rfl, rfl, ?_, ?_, ?_⟩
  · simp
  · simp
  · simp

/-- C21 for `readyEvent`, whose task is homed on CPU 0, delivered on CPU 1. -/
theorem task_ipi_event_handler_stale_witness :
    ∃ s1, task_ipi_event_handler sampleConfig (cpuEnv 1) pendingState (some 0) =
        Outcome.ret () s1 ∧
      s1 =
        { pendingState with
            task_event_map :=
              Function.update pendingState.task_event_map
                (pendingState.task_events 0).id.toNat false } ∧
      s1.mem (TaskRef.heap 4096) = pendingState.mem (TaskRef.heap 4096) ∧
      s1.mem = pendingState.mem ∧
      s1.log = pendingState.log ∧
      Call.set_task_ready (TaskRef.heap 4096) ∉ s1.log.drop pendingState.log.length ∧
      Call.set_need_resched ∉ s1.log.drop pendingState.log.length ∧
      s1.task_event_map (pendingState.task_events 0).id.toNat = false :=
  task_ipi_event_handler_stale sampleConfig (cpuEnv 1) pendingState 0 (TaskRef.heap 4096)
    (by decide) rfl (by decide) (by decide) (Or.inl (by decide))

end Minos
